import Mathlib

/-!
Shallow embedding of `src/indicator.cpp` (ESP32 ESP-NOW LED indicator,
receiver firmware, version 7.2).

Times are millisecond readings of the 32-bit monotonic clock (`millis()`);
all stored timestamps and subtractions are taken modulo 2^32 exactly as
`unsigned long` arithmetic does on the target.  Radio-stack and GPIO calls
are recorded as an effect trace; results of fallible radio calls come from
an explicit environment.  LED levels are tracked by index (the pins are
active LOW: driving LOW means the LED is lit).
-/

def U32 : Nat := 4294967296

/-- Wrap-around unsigned 32-bit subtraction, as `a - b` on `unsigned long`. -/
def usub (a b : Nat) : Nat := (a % U32 + (U32 - b % U32)) % U32

/-- Wrap-around unsigned 32-bit addition. -/
def uadd (a b : Nat) : Nat := (a + b) % U32

-- Configuration constants from the source.
def NUM_LEDS : Nat := 3
def LED_PINS : List Nat := [25, 26, 27]
def WIFI_CHANNEL : Nat := 6
def AWAKE_TIME_MS : Nat := 300
def SLEEP_DURATION_MS : Nat := 1700
def AWAKE_AFTER_COMMAND_MS : Nat := 3000
def MAX_SLEEP_CYCLES : Nat := 10

-- Message types.
def LED_COMMAND : Nat := 1
def ACKNOWLEDGMENT : Nat := 2
def DISCOVERY : Nat := 3

/-- A 6-byte peer MAC address. -/
abbrev Addr := List Nat

inductive SetupState where
  | SETUP_INIT
  | SETUP_SERIAL_WAIT
  | SETUP_LED_TEST
  | SETUP_WIFI_INIT
  | SETUP_WIFI_DISCONNECT_WAIT
  | SETUP_WIFI_CHANNEL_WAIT
  | SETUP_ESPNOW_INIT
  | SETUP_COMPLETE
deriving Repr, DecidableEq

inductive LedTestState where
  | LED_TEST_INIT
  | LED_TEST_SEQUENCE
  | LED_TEST_ALL_ON
  | LED_TEST_ALL_OFF
  | LED_TEST_COMPLETE
deriving Repr, DecidableEq

inductive AckState where
  | ACK_INIT
  | ACK_PEER_SETUP
  | ACK_SEND
  | ACK_WAIT
  | ACK_COMPLETE
deriving Repr, DecidableEq

inductive DiscoveryState where
  | DISCOVERY_INIT
  | DISCOVERY_PEER_SETUP
  | DISCOVERY_SEND
  | DISCOVERY_COMPLETE
deriving Repr, DecidableEq

inductive SleepState where
  | SLEEP_AWAKE
  | SLEEP_PREPARE
  | SLEEP_ENTER
  | SLEEP_WAKEUP
  | SLEEP_REINIT_START
  | SLEEP_WIFI_DISCONNECT
  | SLEEP_WIFI_SETUP
  | SLEEP_CHANNEL_SETUP
  | SLEEP_ESPNOW_CALLBACK
  | SLEEP_PEER_SETUP
  | SLEEP_COMPLETE
deriving Repr, DecidableEq

/-- Drive level of the three LEDs, by index; `true` means the pin is driven
LOW, i.e. the LED is lit. -/
structure Leds where
  led0 : Bool
  led1 : Bool
  led2 : Bool
deriving Repr, DecidableEq

/-- `digitalWrite(LED_PINS[i], …)` for a `Nat` index; out of range writes
nothing (the firmware never indexes out of range, proved below). -/
def Leds.set (l : Leds) (i : Nat) (b : Bool) : Leds :=
  if i = 0 then { l with led0 := b }
  else if i = 1 then { l with led1 := b }
  else if i = 2 then { l with led2 := b }
  else l

def Leds.get (l : Leds) (i : Nat) : Bool :=
  if i = 0 then l.led0
  else if i = 1 then l.led1
  else if i = 2 then l.led2
  else false

/-- Number of LEDs currently lit. -/
def Leds.count (l : Leds) : Nat :=
  (if l.led0 then 1 else 0) + (if l.led1 then 1 else 0) + (if l.led2 then 1 else 0)

/-- `digitalWrite(LED_PINS[i], …)` where `i` is the `int` variable
`activeLedIndex`; negative index writes nothing. -/
def setLedInt (l : Leds) (i : Int) (b : Bool) : Leds :=
  if 0 ≤ i then l.set i.toNat b else l

/-- One radio-stack / board-level call made by the firmware, recorded in
order of occurrence.  `send` carries the tick time at which the call
happened so spacing can be stated. -/
inductive Effect where
  | isPeerExist (a : Addr)
  | delPeer (a : Addr)
  | addPeer (a : Addr)
  | send (dest : Option Addr) (ty : Nat) (value : Nat) (time : Nat)
  | initRadio
  | deinitRadio
  | registerRecvCb
  | setChannel (n : Nat)
  | restart
  | lightSleep
  | prefsPut (a : Addr)
  | gpioHold
  | gpioRelease
deriving Repr, DecidableEq

/-- Calls into the ESP-NOW radio stack (`esp_now_*`). -/
def Effect.isRadioOp : Effect → Bool
  | .isPeerExist _ => true
  | .delPeer _ => true
  | .addPeer _ => true
  | .send _ _ _ _ => true
  | .initRadio => true
  | .deinitRadio => true
  | .registerRecvCb => true
  | _ => false

def Effect.isSend : Effect → Bool
  | .send _ _ _ _ => true
  | _ => false

/-- Results the hardware environment returns to the fallible calls of one
tick, plus the `millis()` reading right after a light sleep ends. -/
structure Env where
  peerExists : Bool
  addPeerOk : Bool
  addPeerRetryOk : Bool
  initOk : Bool
  wakeNow : Nat
deriving Repr, DecidableEq

def defaultEnv : Env :=
  { peerExists := false, addPeerOk := true, addPeerRetryOk := true,
    initOk := true, wakeNow := 0 }

/-- All mutable globals of `indicator.cpp`, plus the persistent peer store
(`Preferences`), the LED drive levels, and whether `ESP.restart()` ran. -/
structure State where
  lastCommandTime : Nat
  lastStatusTime : Nat
  nextSleepTime : Nat
  consecutiveSleepCycles : Nat
  forceExtendedAwake : Bool
  activeLedIndex : Int
  lastSenderMac : Addr
  sendDiscoveryResponse : Bool
  setupState : SetupState
  ledTestState : LedTestState
  ackState : AckState
  discoveryState : DiscoveryState
  sleepState : SleepState
  stateTimer : Nat
  currentTestLed : Nat
  ackAttemptCount : Nat
  ackTargetAddr : Option Addr
  ackTimer : Nat
  ledTimer : Nat
  leds : Leds
  savedPeer : Option Addr
  restarted : Bool
deriving Repr, DecidableEq

/-- State right after `setup()` ran at time `t0` with flash contents
`saved`: globals hold their initializers, the setup FSM is armed. -/
def setupInit (t0 : Nat) (saved : Option Addr) : State :=
  { lastCommandTime := 0, lastStatusTime := 0, nextSleepTime := 0,
    consecutiveSleepCycles := 0, forceExtendedAwake := false,
    activeLedIndex := -1, lastSenderMac := [0, 0, 0, 0, 0, 0],
    sendDiscoveryResponse := false,
    setupState := .SETUP_SERIAL_WAIT, ledTestState := .LED_TEST_INIT,
    ackState := .ACK_INIT, discoveryState := .DISCOVERY_INIT,
    sleepState := .SLEEP_AWAKE,
    stateTimer := t0 % U32, currentTestLed := 0, ackAttemptCount := 0,
    ackTargetAddr := none, ackTimer := 0, ledTimer := 0,
    leds := { led0 := false, led1 := false, led2 := false },
    savedPeer := saved, restarted := false }

theorem usub_eq_sub {a b : Nat} (hba : b ≤ a) (ha : a < U32) :
    usub a b = a - b := by
  have hb : b < U32 := lt_of_le_of_lt hba ha
  simp [usub, Nat.mod_eq_of_lt ha, Nat.mod_eq_of_lt hb, U32] at *
  omega

theorem usub_self (a : Nat) : usub a a = 0 := by
  simp [usub, U32]
  omega

theorem uadd_eq_add {a b : Nat} (h : a + b < U32) : uadd a b = a + b := by
  simp [uadd, Nat.mod_eq_of_lt h]

/-- `processLedTest` (indicator.cpp lines 312-366); purely GPIO, no radio
effects.  `now` is `millis()` at entry. -/
def processLedTest (now : Nat) (s : State) : State :=
  if s.ledTestState = .LED_TEST_INIT then
    { s with currentTestLed := 0, ledTimer := now, ledTestState := .LED_TEST_SEQUENCE }
  else if s.ledTestState = .LED_TEST_SEQUENCE then
    if usub now s.ledTimer < 300 then
      { s with leds := s.leds.set s.currentTestLed true }
    else if usub now s.ledTimer < 400 then
      { s with leds := s.leds.set s.currentTestLed false }
    else
      if s.currentTestLed + 1 ≥ NUM_LEDS then
        { s with currentTestLed := s.currentTestLed + 1, ledTestState := .LED_TEST_ALL_ON }
      else
        { s with currentTestLed := s.currentTestLed + 1, ledTimer := now }
  else if s.ledTestState = .LED_TEST_ALL_ON then
    { s with leds := { led0 := true, led1 := true, led2 := true },
             ledTimer := now, ledTestState := .LED_TEST_ALL_OFF }
  else if s.ledTestState = .LED_TEST_ALL_OFF then
    if usub now s.ledTimer ≥ 300 then
      { s with leds := { led0 := false, led1 := false, led2 := false },
               ledTestState := .LED_TEST_COMPLETE }
    else s
  else s

/-- The body shared by `ACK_INIT` (after arming the timer, by fall-through)
and `ACK_PEER_SETUP` (indicator.cpp lines 604-640): check/delete/re-add the
target peer, retrying the add once after 10 ms; abort to `ACK_COMPLETE` on
repeated failure. -/
def ackPeerSetup (env : Env) (now : Nat) (s : State) : State × List Effect :=
  if s.ackTargetAddr = none then ({ s with ackState := .ACK_COMPLETE }, [])
  else
    let t := s.ackTargetAddr.getD []
    let e1 : List Effect :=
      .isPeerExist t :: (if env.peerExists then [.delPeer t] else []) ++ [.addPeer t]
    if env.addPeerOk then
      ({ s with ackState := .ACK_SEND, ackTimer := now }, e1)
    else if usub now s.ackTimer < 10 then
      (s, e1)
    else if env.addPeerRetryOk then
      ({ s with ackState := .ACK_SEND, ackTimer := now }, e1 ++ [.addPeer t])
    else
      ({ s with ackState := .ACK_COMPLETE }, e1 ++ [.addPeer t])

/-- `processAcknowledgment` (indicator.cpp lines 593-679).  The ACK frame
carries `activeLedIndex` cast to `uint8_t`. -/
def processAcknowledgment (env : Env) (now : Nat) (s : State) : State × List Effect :=
  if s.ackState = .ACK_INIT then
    ackPeerSetup env now { s with ackTimer := now, ackState := .ACK_PEER_SETUP }
  else if s.ackState = .ACK_PEER_SETUP then
    ackPeerSetup env now s
  else if s.ackState = .ACK_SEND then
    ({ s with ackAttemptCount := s.ackAttemptCount + 1, ackTimer := now,
              ackState := .ACK_WAIT },
     [.send s.ackTargetAddr ACKNOWLEDGMENT ((s.activeLedIndex % 256).toNat) now])
  else if s.ackState = .ACK_WAIT then
    if usub now s.ackTimer ≥ 20 then
      if s.ackAttemptCount < 3 then ({ s with ackState := .ACK_SEND }, [])
      else ({ s with ackState := .ACK_COMPLETE }, [])
    else (s, [])
  else -- ACK_COMPLETE
    ({ s with ackState := .ACK_INIT, ackTargetAddr := none }, [])

/-- `processDiscoveryResponse` (indicator.cpp lines 681-738).  Peer setup
reads the global `stateTimer` armed by the dispatcher when it triggered the
run. -/
def processDiscoveryResponse (env : Env) (now : Nat) (s : State) : State × List Effect :=
  if s.discoveryState = .DISCOVERY_PEER_SETUP then
    let t := s.lastSenderMac
    let e1 : List Effect :=
      .isPeerExist t :: (if env.peerExists then [.delPeer t] else []) ++ [.addPeer t]
    if env.addPeerOk then
      ({ s with discoveryState := .DISCOVERY_SEND }, e1)
    else if usub now s.stateTimer < 10 then
      (s, e1)
    else if env.addPeerRetryOk then
      ({ s with discoveryState := .DISCOVERY_SEND }, e1 ++ [.addPeer t])
    else
      ({ s with discoveryState := .DISCOVERY_COMPLETE }, e1 ++ [.addPeer t])
  else if s.discoveryState = .DISCOVERY_SEND then
    ({ s with sendDiscoveryResponse := false, discoveryState := .DISCOVERY_COMPLETE },
     [.send (some s.lastSenderMac) DISCOVERY 0 now])
  else if s.discoveryState = .DISCOVERY_COMPLETE then
    ({ s with discoveryState := .DISCOVERY_INIT }, [])
  else (s, [])

/-- `handleLedCommand` (indicator.cpp lines 568-591): validate, switch the
lit LED, then start the acknowledgment FSM and run its first step
immediately. -/
def handleLedCommand (env : Env) (now : Nat) (ledIndex : Nat) (senderAddr : Addr)
    (s : State) : State × List Effect :=
  if ledIndex ≥ NUM_LEDS then (s, [])
  else
    let leds1 := if s.activeLedIndex ≥ 0 then setLedInt s.leds s.activeLedIndex false else s.leds
    processAcknowledgment env now
      { s with leds := leds1.set ledIndex true, activeLedIndex := (ledIndex : Int),
               ackTargetAddr := some senderAddr, ackState := .ACK_INIT,
               ackAttemptCount := 0 }

/-- `onDataReceived` (indicator.cpp lines 523-566), the ESP-NOW receive
callback.  Note the sender MAC is cached for every frame of the right
length, and a COMMAND stamps `lastCommandTime` and clears the sleep-cycle
counters before the LED index is validated. -/
def onDataReceived (env : Env) (now : Nat) (macAddr : Addr) (data : List Nat)
    (s : State) : State × List Effect :=
  if data.length = 2 then
    let ty := data.getD 0 0 % 256
    let v := data.getD 1 0 % 256
    let s1 := { s with lastSenderMac := macAddr }
    if ty = LED_COMMAND then
      handleLedCommand env now v macAddr
        { s1 with lastCommandTime := now % U32, consecutiveSleepCycles := 0,
                  forceExtendedAwake := false }
    else if ty = DISCOVERY then
      ({ s1 with savedPeer := some macAddr, lastSenderMac := macAddr,
                 sendDiscoveryResponse := true, lastCommandTime := now % U32,
                 consecutiveSleepCycles := 0, forceExtendedAwake := false },
       [.prefsPut macAddr])
    else (s1, [])
  else (s, [])

/-- `processSleepWakeup` (indicator.cpp lines 373-494).  The `SLEEP_ENTER`
case blocks in `esp_light_sleep_start`; `env.wakeNow` is the `millis()`
reading right after waking. -/
def processSleepWakeup (env : Env) (now : Nat) (s : State) : State × List Effect :=
  if s.sleepState = .SLEEP_PREPARE then
    if usub now s.stateTimer ≥ AWAKE_TIME_MS then
      ({ s with sleepState := .SLEEP_ENTER },
       if s.activeLedIndex ≥ 0 then [.gpioHold] else [])
    else (s, [])
  else if s.sleepState = .SLEEP_ENTER then
    ({ s with leds := if s.activeLedIndex ≥ 0 then setLedInt s.leds s.activeLedIndex true
                      else s.leds,
              sleepState := .SLEEP_REINIT_START, stateTimer := env.wakeNow % U32 },
     [.lightSleep, .gpioRelease])
  else if s.sleepState = .SLEEP_REINIT_START then
    ({ s with sleepState := .SLEEP_WIFI_DISCONNECT, stateTimer := now }, [.deinitRadio])
  else if s.sleepState = .SLEEP_WIFI_DISCONNECT then
    if usub now s.stateTimer ≥ 20 then
      ({ s with sleepState := .SLEEP_WIFI_SETUP, stateTimer := now }, [])
    else (s, [])
  else if s.sleepState = .SLEEP_WIFI_SETUP then
    if usub now s.stateTimer ≥ 20 then
      ({ s with sleepState := .SLEEP_CHANNEL_SETUP, stateTimer := now },
       [.setChannel WIFI_CHANNEL])
    else (s, [])
  else if s.sleepState = .SLEEP_CHANNEL_SETUP then
    if usub now s.stateTimer ≥ 20 then
      if env.initOk then
        ({ s with sleepState := .SLEEP_ESPNOW_CALLBACK, stateTimer := now }, [.initRadio])
      else
        -- Reinit failure after sleep is absorbed: skip to complete, no restart.
        ({ s with sleepState := .SLEEP_COMPLETE, stateTimer := now }, [.initRadio])
    else (s, [])
  else if s.sleepState = .SLEEP_ESPNOW_CALLBACK then
    ({ s with sleepState := .SLEEP_PEER_SETUP, stateTimer := now }, [.registerRecvCb])
  else if s.sleepState = .SLEEP_PEER_SETUP then
    ({ s with sleepState := .SLEEP_COMPLETE },
     if s.lastSenderMac.getD 0 0 ≠ 0 ∨ s.lastSenderMac.getD 1 0 ≠ 0
     then [.addPeer s.lastSenderMac] else [])
  else if s.sleepState = .SLEEP_COMPLETE then
    if s.consecutiveSleepCycles + 1 ≥ MAX_SLEEP_CYCLES then
      ({ s with consecutiveSleepCycles := 0, forceExtendedAwake := true,
                sleepState := .SLEEP_AWAKE }, [])
    else
      ({ s with consecutiveSleepCycles := s.consecutiveSleepCycles + 1,
                nextSleepTime := uadd now AWAKE_TIME_MS, sleepState := .SLEEP_AWAKE }, [])
  else (s, [])

/-- The setup branch of `loop()` (indicator.cpp lines 151-237). -/
def setupTick (env : Env) (now : Nat) (s : State) : State × List Effect :=
  if s.setupState = .SETUP_SERIAL_WAIT then
    if usub now s.stateTimer ≥ 500 then
      ({ s with leds := { led0 := false, led1 := false, led2 := false },
                ledTestState := .LED_TEST_INIT, setupState := .SETUP_LED_TEST }, [])
    else (s, [])
  else if s.setupState = .SETUP_LED_TEST then
    let s1 := processLedTest now s
    if s1.ledTestState = .LED_TEST_COMPLETE then
      ({ s1 with lastSenderMac := if s1.savedPeer = none then s1.lastSenderMac
                                  else s1.savedPeer.getD [],
                 setupState := .SETUP_WIFI_INIT }, [])
    else (s1, [])
  else if s.setupState = .SETUP_WIFI_INIT then
    ({ s with stateTimer := now, setupState := .SETUP_WIFI_DISCONNECT_WAIT }, [])
  else if s.setupState = .SETUP_WIFI_DISCONNECT_WAIT then
    if usub now s.stateTimer ≥ 300 then
      ({ s with stateTimer := now, setupState := .SETUP_WIFI_CHANNEL_WAIT },
       [.setChannel WIFI_CHANNEL])
    else (s, [])
  else if s.setupState = .SETUP_WIFI_CHANNEL_WAIT then
    if usub now s.stateTimer ≥ 100 then
      ({ s with setupState := .SETUP_ESPNOW_INIT }, [])
    else (s, [])
  else if s.setupState = .SETUP_ESPNOW_INIT then
    if env.initOk then
      ({ s with lastStatusTime := now, lastCommandTime := now,
                nextSleepTime := uadd now AWAKE_AFTER_COMMAND_MS,
                setupState := .SETUP_COMPLETE }, [.initRadio, .registerRecvCb])
    else
      -- esp_now_init failure in setup: ESP.restart().
      ({ s with stateTimer := now, restarted := true }, [.initRadio, .restart])
  else (s, [])

/-- Dispatcher phase 1 (indicator.cpp lines 240-242): advance the Ack FSM
if it is not idle.  `ACK_INIT` and `ACK_COMPLETE` are the states the
dispatcher treats as idle. -/
def ackIdle (a : AckState) : Prop := a = .ACK_INIT ∨ a = .ACK_COMPLETE

instance (a : AckState) : Decidable (ackIdle a) := by
  unfold ackIdle; infer_instance

def ackPhase (env : Env) (now : Nat) (s : State) : State × List Effect :=
  if ackIdle s.ackState then (s, []) else processAcknowledgment env now s

/-- Dispatcher phase 2 (lines 245-248): arm the Discovery FSM when a
response is pending and the FSM is in its initial state. -/
def discoveryTrigger (now : Nat) (s : State) : State :=
  if s.sendDiscoveryResponse ∧ s.discoveryState = .DISCOVERY_INIT then
    { s with discoveryState := .DISCOVERY_PEER_SETUP, stateTimer := now }
  else s

/-- Dispatcher phase 3 (lines 250-252): advance the Discovery FSM if it is
neither in its initial nor in its complete state. -/
def discoveryPhase (env : Env) (now : Nat) (s : State) : State × List Effect :=
  if s.discoveryState ≠ .DISCOVERY_INIT ∧ s.discoveryState ≠ .DISCOVERY_COMPLETE then
    processDiscoveryResponse env now s
  else (s, [])

/-- Dispatcher phase 4 (lines 255-258): periodic status print stamps
`lastStatusTime`. -/
def statusPhase (now : Nat) (s : State) : State :=
  { s with lastStatusTime := if usub now s.lastStatusTime ≥ 10000 then now
                             else s.lastStatusTime }

/-- Dispatcher phase 5 (lines 261-263): re-drive the active LED. -/
def ledReassert (s : State) : State :=
  { s with leds := if s.activeLedIndex ≥ 0 then setLedInt s.leds s.activeLedIndex true
                   else s.leds }

/-- Dispatcher phases 6-7 (lines 266-304): the duty-cycle policy, including
the transition to `SLEEP_PREPARE` when a sleep cycle may begin. -/
def dutyPolicy (now : Nat) (s : State) : State :=
  if usub now s.lastCommandTime < AWAKE_AFTER_COMMAND_MS then
    { s with nextSleepTime := uadd s.lastCommandTime AWAKE_AFTER_COMMAND_MS,
             consecutiveSleepCycles := 0, sleepState := .SLEEP_AWAKE }
  else if s.forceExtendedAwake then
    let sx :=
      if usub now s.lastStatusTime ≥ 5000 then
        let sy := { s with lastStatusTime := now }
        if usub now s.lastCommandTime ≥ 10000 then
          { sy with forceExtendedAwake := false, consecutiveSleepCycles := 0,
                    nextSleepTime := uadd now 100 }
        else sy
      else s
    { sx with sleepState := .SLEEP_AWAKE }
  else if now ≥ s.nextSleepTime ∧ s.sleepState = .SLEEP_AWAKE then
    { s with sleepState := .SLEEP_PREPARE, stateTimer := now }
  else s

/-- Dispatcher phase 8 (lines 307-309): advance the sleep FSM when it is
not awake. -/
def sleepPhase (env : Env) (now : Nat) (s : State) : State × List Effect :=
  if s.sleepState ≠ .SLEEP_AWAKE then processSleepWakeup env now s else (s, [])

/-- One iteration of `loop()` (indicator.cpp lines 147-310) at
`millis() = now0`. -/
def loopTick (env : Env) (now0 : Nat) (s : State) : State × List Effect :=
  let now := now0 % U32
  if s.restarted then (s, [])
  else if s.setupState ≠ .SETUP_COMPLETE then setupTick env now s
  else
    let r1 := ackPhase env now s
    let r3 := discoveryPhase env now (discoveryTrigger now r1.1)
    let s6 := dutyPolicy now (ledReassert (statusPhase now r3.1))
    let r7 := sleepPhase env now s6
    (r7.1, r1.2 ++ r3.2 ++ r7.2)

/-- An externally visible event: one dispatcher tick, or one asynchronous
invocation of the receive callback by the radio stack. -/
inductive Event where
  | tick (now : Nat) (env : Env)
  | recv (now : Nat) (env : Env) (macAddr : Addr) (data : List Nat)
deriving Repr, DecidableEq

def step (s : State) : Event → State × List Effect
  | .tick now env => loopTick env now s
  | .recv now env mac data =>
      if s.restarted then (s, []) else onDataReceived env (now % U32) mac data s

def run (s : State) : List Event → State × List Effect
  | [] => (s, [])
  | e :: es =>
      let r := step s e
      let r2 := run r.1 es
      (r2.1, r.2 ++ r2.2)

/-! ### Shape lemmas: which state fields each phase can modify. -/

theorem ackPeerSetup_shape (env : Env) (now : Nat) (s : State) :
    ∃ a t, (ackPeerSetup env now s).1 = { s with ackState := a, ackTimer := t } := by
  unfold ackPeerSetup
  split_ifs <;>
    first
      | exact ⟨s.ackState, s.ackTimer, rfl⟩
      | exact ⟨_, s.ackTimer, rfl⟩
      | exact ⟨_, _, rfl⟩

theorem processAcknowledgment_shape (env : Env) (now : Nat) (s : State) :
    ∃ a t c g, (processAcknowledgment env now s).1 =
      { s with ackState := a, ackTimer := t, ackAttemptCount := c, ackTargetAddr := g } := by
  unfold processAcknowledgment
  split_ifs <;>
    first
      | exact ⟨s.ackState, s.ackTimer, s.ackAttemptCount, s.ackTargetAddr, rfl⟩
      | exact ⟨_, _, s.ackAttemptCount, s.ackTargetAddr, rfl⟩
      | exact ⟨_, s.ackTimer, s.ackAttemptCount, s.ackTargetAddr, rfl⟩
      | exact ⟨_, _, _, s.ackTargetAddr, rfl⟩
      | exact ⟨_, s.ackTimer, s.ackAttemptCount, _, rfl⟩
      | (obtain ⟨a, t, h⟩ := ackPeerSetup_shape env now
           { s with ackTimer := now, ackState := .ACK_PEER_SETUP }
         exact ⟨a, t, s.ackAttemptCount, s.ackTargetAddr, h⟩)
      | (obtain ⟨a, t, h⟩ := ackPeerSetup_shape env now s
         exact ⟨a, t, s.ackAttemptCount, s.ackTargetAddr, h⟩)

theorem ackPhase_shape (env : Env) (now : Nat) (s : State) :
    ∃ a t c g, (ackPhase env now s).1 =
      { s with ackState := a, ackTimer := t, ackAttemptCount := c, ackTargetAddr := g } := by
  unfold ackPhase
  split_ifs
  · exact ⟨s.ackState, s.ackTimer, s.ackAttemptCount, s.ackTargetAddr, rfl⟩
  · exact processAcknowledgment_shape env now s

theorem discoveryTrigger_shape (now : Nat) (s : State) :
    ∃ d t, discoveryTrigger now s = { s with discoveryState := d, stateTimer := t } := by
  unfold discoveryTrigger
  split_ifs <;>
    first
      | exact ⟨s.discoveryState, s.stateTimer, rfl⟩
      | exact ⟨_, _, rfl⟩

theorem processDiscoveryResponse_shape (env : Env) (now : Nat) (s : State) :
    ∃ d b, (processDiscoveryResponse env now s).1 =
      { s with discoveryState := d, sendDiscoveryResponse := b } := by
  unfold processDiscoveryResponse
  split_ifs <;>
    first
      | exact ⟨s.discoveryState, s.sendDiscoveryResponse, rfl⟩
      | exact ⟨_, s.sendDiscoveryResponse, rfl⟩
      | exact ⟨_, _, rfl⟩

theorem discoveryPhase_shape (env : Env) (now : Nat) (s : State) :
    ∃ d b, (discoveryPhase env now s).1 =
      { s with discoveryState := d, sendDiscoveryResponse := b } := by
  unfold discoveryPhase
  split_ifs
  · exact processDiscoveryResponse_shape env now s
  · exact ⟨s.discoveryState, s.sendDiscoveryResponse, rfl⟩

theorem statusPhase_shape (now : Nat) (s : State) :
    ∃ t, statusPhase now s = { s with lastStatusTime := t } :=
  ⟨_, rfl⟩

theorem ledReassert_shape (s : State) :
    ∃ l, ledReassert s = { s with leds := l } :=
  ⟨_, rfl⟩

theorem dutyPolicy_shape (now : Nat) (s : State) :
    ∃ n c b ls sl st, dutyPolicy now s =
      { s with nextSleepTime := n, consecutiveSleepCycles := c, forceExtendedAwake := b,
               lastStatusTime := ls, sleepState := sl, stateTimer := st } := by
  unfold dutyPolicy
  split_ifs <;>
    first
      | exact ⟨_, _, s.forceExtendedAwake, s.lastStatusTime, _, s.stateTimer, rfl⟩
      | exact ⟨_, _, _, _, _, s.stateTimer, rfl⟩
      | exact ⟨s.nextSleepTime, s.consecutiveSleepCycles, s.forceExtendedAwake, _, _,
               s.stateTimer, rfl⟩
      | exact ⟨s.nextSleepTime, s.consecutiveSleepCycles, s.forceExtendedAwake,
               s.lastStatusTime, _, s.stateTimer, rfl⟩
      | exact ⟨s.nextSleepTime, s.consecutiveSleepCycles, s.forceExtendedAwake,
               s.lastStatusTime, _, _, rfl⟩
      | exact ⟨s.nextSleepTime, s.consecutiveSleepCycles, s.forceExtendedAwake,
               s.lastStatusTime, s.sleepState, s.stateTimer, rfl⟩

/-! ### Effect-trace lemmas: what kinds of calls each routine can make. -/

theorem ackPeerSetup_effects (env : Env) (now : Nat) (s : State) :
    ∀ e ∈ (ackPeerSetup env now s).2,
      e.isSend = false ∧ e ≠ .restart ∧ e ≠ .lightSleep := by
  unfold ackPeerSetup
  split_ifs <;> intro e he <;>
    simp only [List.mem_cons, List.mem_append, List.mem_singleton, List.not_mem_nil,
      or_false, false_or] at he <;>
    casesm* _ ∨ _ <;> subst_vars <;> simp [Effect.isSend]

theorem processAcknowledgment_effects (env : Env) (now : Nat) (s : State) :
    ∀ e ∈ (processAcknowledgment env now s).2, e ≠ .restart ∧ e ≠ .lightSleep := by
  unfold processAcknowledgment
  split_ifs <;> intro e he <;>
    first
      | exact ⟨(ackPeerSetup_effects env now _ e he).2.1,
               (ackPeerSetup_effects env now _ e he).2.2⟩
      | simp_all

theorem ackPhase_effects (env : Env) (now : Nat) (s : State) :
    ∀ e ∈ (ackPhase env now s).2, e ≠ .restart ∧ e ≠ .lightSleep := by
  unfold ackPhase
  split_ifs
  · simp
  · exact processAcknowledgment_effects env now s

theorem processDiscoveryResponse_effects (env : Env) (now : Nat) (s : State) :
    ∀ e ∈ (processDiscoveryResponse env now s).2, e ≠ .restart ∧ e ≠ .lightSleep := by
  intro e he
  cases hd : s.discoveryState <;> simp [processDiscoveryResponse, hd] at he <;>
    first
      | (rcases he with rfl | rfl <;> simp)
      | (simp_all; done)
      | (revert he; split_ifs <;> intro he <;> (try simp at he) <;>
         casesm* _ ∨ _ <;> subst_vars <;> simp)

theorem discoveryPhase_effects (env : Env) (now : Nat) (s : State) :
    ∀ e ∈ (discoveryPhase env now s).2, e ≠ .restart ∧ e ≠ .lightSleep := by
  unfold discoveryPhase
  split_ifs
  · exact processDiscoveryResponse_effects env now s
  · simp

set_option maxHeartbeats 1000000 in
theorem processSleepWakeup_effects (env : Env) (now : Nat) (s : State) :
    ∀ e ∈ (processSleepWakeup env now s).2, e ≠ .restart := by
  intro e he
  cases hs : s.sleepState <;> simp [processSleepWakeup, hs] at he <;>
    first
      | (rcases he with rfl | rfl <;> simp)
      | (simp_all; done)
      | (revert he; split_ifs <;> intro he <;> (try simp at he) <;> simp_all)

theorem sleepPhase_effects (env : Env) (now : Nat) (s : State) :
    ∀ e ∈ (sleepPhase env now s).2, e ≠ .restart := by
  unfold sleepPhase
  split_ifs
  · exact processSleepWakeup_effects env now s
  · simp

/-- With setup complete and no restart pending, one dispatcher tick is the
phase pipeline. -/
theorem loopTick_main (env : Env) (now : Nat) (s : State)
    (hres : s.restarted = false) (hsetup : s.setupState = .SETUP_COMPLETE)
    (hnow : now < U32) :
    loopTick env now s =
      ((sleepPhase env now
          (dutyPolicy now (ledReassert (statusPhase now
            (discoveryPhase env now
              (discoveryTrigger now (ackPhase env now s).1)).1)))).1,
       (ackPhase env now s).2 ++
       (discoveryPhase env now (discoveryTrigger now (ackPhase env now s).1)).2 ++
       (sleepPhase env now
          (dutyPolicy now (ledReassert (statusPhase now
            (discoveryPhase env now
              (discoveryTrigger now (ackPhase env now s).1)).1)))).2) := by
  unfold loopTick
  simp only [hres, hsetup, Nat.mod_eq_of_lt hnow, Bool.false_eq_true, if_false,
    ne_eq, not_true_eq_false, ite_false]

/-- Phases 1-5 of a tick only touch the Ack/Discovery FSM scratch, the
status timestamp and the LED levels. -/
theorem prefixPhases_shape (env : Env) (now : Nat) (s : State) :
    ∃ a t c g d st b l,
      ledReassert (statusPhase now
        (discoveryPhase env now (discoveryTrigger now (ackPhase env now s).1)).1) =
      { s with ackState := a, ackTimer := t, ackAttemptCount := c, ackTargetAddr := g,
               discoveryState := d, stateTimer := st, sendDiscoveryResponse := b,
               lastStatusTime := if usub now s.lastStatusTime ≥ 10000 then now
                                 else s.lastStatusTime,
               leds := l } := by
  obtain ⟨a, t, c, g, h1⟩ := ackPhase_shape env now s
  rw [h1]
  obtain ⟨d2, st2, h2⟩ := discoveryTrigger_shape now
    { s with ackState := a, ackTimer := t, ackAttemptCount := c, ackTargetAddr := g }
  rw [h2]
  obtain ⟨d3, b3, h3⟩ := discoveryPhase_shape env now
    { s with ackState := a, ackTimer := t, ackAttemptCount := c, ackTargetAddr := g,
             discoveryState := d2, stateTimer := st2 }
  rw [h3]
  exact ⟨a, t, c, g, d3, st2, b3, _, rfl⟩

/-- A plausible state right after setup completed at time `t` (mirrors the
assignments of the `SETUP_ESPNOW_INIT` case). -/
def postSetup (t : Nat) : State :=
  { lastCommandTime := t, lastStatusTime := t, nextSleepTime := uadd t AWAKE_AFTER_COMMAND_MS,
    consecutiveSleepCycles := 0, forceExtendedAwake := false,
    activeLedIndex := -1, lastSenderMac := [0, 0, 0, 0, 0, 0],
    sendDiscoveryResponse := false,
    setupState := .SETUP_COMPLETE, ledTestState := .LED_TEST_COMPLETE,
    ackState := .ACK_INIT, discoveryState := .DISCOVERY_INIT,
    sleepState := .SLEEP_AWAKE, stateTimer := t, currentTestLed := NUM_LEDS,
    ackAttemptCount := 0, ackTargetAddr := none, ackTimer := 0, ledTimer := 0,
    leds := { led0 := false, led1 := false, led2 := false },
    savedPeer := none, restarted := false }

/-- A call of `processAcknowledgment` in the `ACK_INIT` state only does
peer setup; the send happens on a later tick. -/
theorem processAcknowledgment_init_no_send (env : Env) (now : Nat) (s : State)
    (h : s.ackState = .ACK_INIT) :
    ∀ e ∈ (processAcknowledgment env now s).2, e.isSend = false := by
  unfold processAcknowledgment
  rw [if_pos h]
  intro e he
  exact (ackPeerSetup_effects env now _ e he).1

theorem onDataReceived_effects (env : Env) (now : Nat) (mac : Addr) (data : List Nat)
    (s : State) :
    ∀ e ∈ (onDataReceived env now mac data s).2,
      e.isSend = false ∧ e ≠ .restart ∧ e ≠ .lightSleep := by
  intro e he
  unfold onDataReceived handleLedCommand at he
  dsimp only at he
  repeat' split at he
  all_goals
    first
      | exact ⟨processAcknowledgment_init_no_send env now _ rfl e he,
               processAcknowledgment_effects env now _ e he⟩
      | ((try simp at he) <;> simp_all [Effect.isSend])

/-! ### C1: the 3-second awake window after a frame blocks sleep. -/

/-- C1: on every dispatcher tick taken while less than 3000 ms have elapsed
since the last accepted frame, the node stays fully awake (the sleep FSM
ends the tick in `SLEEP_AWAKE`, no `SLEEP_PREPARE` transition survives, and
no light sleep is entered), and the consecutive-sleep-cycle counter is
reset to 0. -/
theorem C1_awake_window_blocks_sleep (env : Env) (now : Nat) (s : State)
    (hres : s.restarted = false) (hsetup : s.setupState = .SETUP_COMPLETE)
    (hnow : now < U32)
    (hrecent : usub now s.lastCommandTime < AWAKE_AFTER_COMMAND_MS) :
    (loopTick env now s).1.sleepState = .SLEEP_AWAKE ∧
    (loopTick env now s).1.consecutiveSleepCycles = 0 ∧
    ∀ e ∈ (loopTick env now s).2, e ≠ .lightSleep := by
  rw [loopTick_main env now s hres hsetup hnow]
  obtain ⟨a, t, c, g, d, st, b, l, hpre⟩ := prefixPhases_shape env now s
  rw [hpre]
  unfold dutyPolicy
  rw [if_pos hrecent]
  unfold sleepPhase
  simp only [ne_eq, not_true_eq_false, ite_false, if_false]
  refine ⟨trivial, trivial, ?_⟩
  intro e he
  simp only [List.append_nil, List.mem_append] at he
  rcases he with he | he
  · exact (ackPhase_effects env now s e he).2
  · exact (discoveryPhase_effects env now _ e he).2

/-- C1 witness at a concrete input. -/
theorem C1_witness :
    (loopTick defaultEnv 1000 (postSetup 0)).1.sleepState = .SLEEP_AWAKE ∧
    (loopTick defaultEnv 1000 (postSetup 0)).1.consecutiveSleepCycles = 0 ∧
    ∀ e ∈ (loopTick defaultEnv 1000 (postSetup 0)).2, e ≠ .lightSleep :=
  C1_awake_window_blocks_sleep defaultEnv 1000 (postSetup 0) rfl rfl (by decide) (by decide)

/-! ### LED level lemmas. -/

theorem Leds.get_set_self (l : Leds) (j : Nat) (b : Bool) (hj : j < 3) :
    (l.set j b).get j = b := by
  unfold Leds.set Leds.get
  split_ifs <;> simp_all <;> omega

theorem Leds.get_set_ne (l : Leds) (i j : Nat) (b : Bool) (h : i ≠ j) :
    (l.set i b).get j = l.get j := by
  unfold Leds.set Leds.get
  split_ifs <;> simp_all

theorem setLedInt_get (l : Leds) (a : Int) (b : Bool) (j : Nat) (hj : j < 3) :
    (setLedInt l a b).get j = if a = (j : Int) then b else l.get j := by
  unfold setLedInt
  by_cases h0 : 0 ≤ a
  · rw [if_pos h0]
    by_cases he : a = (j : Int)
    · rw [if_pos he, he]
      simp only [Int.toNat_natCast]
      exact Leds.get_set_self l j b hj
    · rw [if_neg he, Leds.get_set_ne]
      omega
  · rw [if_neg h0, if_neg (by omega)]

/-- If every lit LED equals the active index, at most one LED is lit. -/
theorem Leds.count_le_one (l : Leds) (a : Int)
    (h : ∀ j, j < 3 → l.get j = true → a = (j : Int)) : l.count ≤ 1 := by
  have h0 := h 0 (by omega)
  have h1 := h 1 (by omega)
  have h2 := h 2 (by omega)
  rcases l with ⟨b0, b1, b2⟩
  simp [Leds.get] at h0 h1 h2
  cases b0 <;> cases b1 <;> cases b2 <;> simp_all [Leds.count] <;> omega

/-! ### C6: sleep-cycle completion bookkeeping and the 10-cycle cap. -/

/-- C6: on completing a sleep cycle the counter is incremented; when it
reaches the cap of 10, `forceExtendedAwake` is set and the counter resets
to 0 (so 10 consecutive completed cycles from a counter of 0 — which any
accepted frame resets — trigger the flag); below the cap the next sleep is
scheduled for `now + 300` ms instead.  Either way the FSM returns to
`SLEEP_AWAKE`. -/
theorem C6_sleep_cycle_cap (env : Env) (now : Nat) (s : State)
    (h : s.sleepState = .SLEEP_COMPLETE) :
    (processSleepWakeup env now s).1.sleepState = .SLEEP_AWAKE ∧
    (s.consecutiveSleepCycles + 1 ≥ MAX_SLEEP_CYCLES →
      (processSleepWakeup env now s).1.forceExtendedAwake = true ∧
      (processSleepWakeup env now s).1.consecutiveSleepCycles = 0) ∧
    (s.consecutiveSleepCycles + 1 < MAX_SLEEP_CYCLES →
      (processSleepWakeup env now s).1.nextSleepTime = uadd now AWAKE_TIME_MS ∧
      (processSleepWakeup env now s).1.consecutiveSleepCycles =
        s.consecutiveSleepCycles + 1 ∧
      (processSleepWakeup env now s).1.forceExtendedAwake = s.forceExtendedAwake) := by
  simp only [processSleepWakeup, h]
  norm_num
  split_ifs with hcap <;> simp_all <;> omega

/-- C6 witness: the 10th completed cycle sets the flag. -/
theorem C6_witness :
    (processSleepWakeup defaultEnv 5000
        { postSetup 0 with sleepState := .SLEEP_COMPLETE,
                           consecutiveSleepCycles := 9 }).1.sleepState = .SLEEP_AWAKE ∧
    (9 + 1 ≥ MAX_SLEEP_CYCLES →
      (processSleepWakeup defaultEnv 5000
          { postSetup 0 with sleepState := .SLEEP_COMPLETE,
                             consecutiveSleepCycles := 9 }).1.forceExtendedAwake = true ∧
      (processSleepWakeup defaultEnv 5000
          { postSetup 0 with sleepState := .SLEEP_COMPLETE,
                             consecutiveSleepCycles := 9 }).1.consecutiveSleepCycles = 0) ∧
    (9 + 1 < MAX_SLEEP_CYCLES →
      (processSleepWakeup defaultEnv 5000
          { postSetup 0 with sleepState := .SLEEP_COMPLETE,
                             consecutiveSleepCycles := 9 }).1.nextSleepTime =
        uadd 5000 AWAKE_TIME_MS ∧
      (processSleepWakeup defaultEnv 5000
          { postSetup 0 with sleepState := .SLEEP_COMPLETE,
                             consecutiveSleepCycles := 9 }).1.consecutiveSleepCycles = 9 + 1 ∧
      (processSleepWakeup defaultEnv 5000
          { postSetup 0 with sleepState := .SLEEP_COMPLETE,
                             consecutiveSleepCycles := 9 }).1.forceExtendedAwake =
        ({ postSetup 0 with sleepState := .SLEEP_COMPLETE,
                            consecutiveSleepCycles := 9 } : State).forceExtendedAwake) :=
  C6_sleep_cycle_cap defaultEnv 5000
    { postSetup 0 with sleepState := .SLEEP_COMPLETE, consecutiveSleepCycles := 9 } rfl

/-! ### C9: which radio-init failures restart the device. -/

def envInitFail : Env := { defaultEnv with initOk := false }

/-- C9 counterexample: a radio-init rejection in the post-sleep reinit path
(`SLEEP_CHANNEL_SETUP`) does not restart the device — the sleep FSM skips
to `SLEEP_COMPLETE` and execution continues, refuting the claim that the
device restarts unconditionally whenever radio init is rejected. -/
theorem C9_counterexample :
    (processSleepWakeup envInitFail 5000
        { postSetup 0 with sleepState := .SLEEP_CHANNEL_SETUP,
                           stateTimer := 0 }).1.sleepState = .SLEEP_COMPLETE ∧
    (processSleepWakeup envInitFail 5000
        { postSetup 0 with sleepState := .SLEEP_CHANNEL_SETUP,
                           stateTimer := 0 }).1.restarted = false ∧
    Effect.initRadio ∈ (processSleepWakeup envInitFail 5000
        { postSetup 0 with sleepState := .SLEEP_CHANNEL_SETUP, stateTimer := 0 }).2 ∧
    Effect.restart ∉ (processSleepWakeup envInitFail 5000
        { postSetup 0 with sleepState := .SLEEP_CHANNEL_SETUP, stateTimer := 0 }).2 := by
  decide

/-- Only the `SETUP_ESPNOW_INIT` case of the setup FSM can emit a
restart. -/
theorem setupTick_restart_source (env : Env) (now : Nat) (s : State)
    (h : Effect.restart ∈ (setupTick env now s).2) :
    s.setupState = .SETUP_ESPNOW_INIT ∧ env.initOk = false := by
  unfold setupTick at h
  split_ifs at h <;>
    first
      | (simp_all; done)
      | (by_cases hts : (processLedTest now s).ledTestState = .LED_TEST_COMPLETE <;>
         simp [hts] at h)

/-- C9 (amended): a radio-init rejection during initial setup restarts the
device, and this is the only restart path in the program; a radio-init
rejection during the post-sleep reinit is instead absorbed, the sleep FSM
skipping to `SLEEP_COMPLETE` with no restart. -/
theorem C9_amended_restart_only_in_setup (env : Env) (now : Nat) (s : State) :
    (s.restarted = false → s.setupState = .SETUP_ESPNOW_INIT → env.initOk = false →
      (loopTick env now s).1.restarted = true ∧
      Effect.restart ∈ (loopTick env now s).2) ∧
    (s.sleepState = .SLEEP_CHANNEL_SETUP → usub now s.stateTimer ≥ 20 →
      env.initOk = false →
      (processSleepWakeup env now s).1.sleepState = .SLEEP_COMPLETE ∧
      (processSleepWakeup env now s).1.restarted = s.restarted ∧
      Effect.restart ∉ (processSleepWakeup env now s).2) ∧
    (∀ s2 : State, ∀ ev : Event, Effect.restart ∈ (step s2 ev).2 →
      s2.setupState = .SETUP_ESPNOW_INIT) := by
  refine ⟨?_, ?_, ?_⟩
  · intro hres hsetup henv
    simp [loopTick, hres, hsetup, setupTick, henv]
  · intro hs ht henv
    simp [processSleepWakeup, hs, henv, ht]
  · intro s2 ev h
    cases ev with
    | tick tnow tenv =>
        by_cases hr : s2.restarted = true
        · simp [step, loopTick, hr] at h
        · by_cases hs2 : s2.setupState = .SETUP_COMPLETE
          · simp only [step, loopTick, hr, hs2, Bool.false_eq_true, if_false, ne_eq,
              not_true_eq_false, ite_false] at h
            simp only [Bool.not_eq_true] at hr
            rw [List.mem_append, List.mem_append] at h
            rcases h with (h | h) | h
            · exact absurd rfl ((ackPhase_effects tenv _ s2 _ h).1)
            · exact absurd rfl ((discoveryPhase_effects tenv _ _ _ h).1)
            · exact absurd rfl (sleepPhase_effects tenv _ _ _ h)
          · simp only [step, loopTick, hr, hs2, Bool.false_eq_true, if_false, ne_eq,
              not_false_eq_true, ite_true] at h
            exact (setupTick_restart_source tenv _ s2 h).1
    | recv rnow renv mac data =>
        by_cases hr : s2.restarted = true
        · simp [step, hr] at h
        · simp only [step, hr, Bool.false_eq_true, if_false] at h
          exact absurd rfl ((onDataReceived_effects renv _ mac data s2 _ h).2.1)

/-- C9 witness: init failure during setup restarts, at a concrete input. -/
theorem C9_witness :
    (loopTick envInitFail 700
        { setupInit 0 none with setupState := .SETUP_ESPNOW_INIT }).1.restarted = true ∧
    Effect.restart ∈ (loopTick envInitFail 700
        { setupInit 0 none with setupState := .SETUP_ESPNOW_INIT }).2 :=
  (C9_amended_restart_only_in_setup envInitFail 700
      { setupInit 0 none with setupState := .SETUP_ESPNOW_INIT }).1 rfl rfl rfl

/-! ### C7: the forced-extended-awake window and its auto-clear. -/

/-- A node in the forced-extended-awake window whose last status print was
at 19500 ms, last accepted frame at 0 ms. -/
def c7state : State :=
  { postSetup 0 with forceExtendedAwake := true, lastStatusTime := 19500 }

/-- C7 counterexample: a tick at `now = 20000` with 20000 ms since the last
accepted frame (≥ 10000) but only 500 ms since the last status print leaves
`forceExtendedAwake` set — the flag is not cleared on "any tick at which
10000 ms have elapsed since the last accepted frame". -/
theorem C7_counterexample :
    usub 20000 c7state.lastCommandTime ≥ 10000 ∧
    (loopTick defaultEnv 20000 c7state).1.forceExtendedAwake = true := by
  decide

/-- C7 (amended): while `forceExtendedAwake` is set (and the 3000 ms
post-frame window has passed), every tick stays awake; the flag is cleared
— with the counter reset and a 100 ms grace delay `nextSleepTime = now +
100` — exactly on a tick at which 10000 ms have elapsed since the last
accepted frame AND between 5000 and 10000 ms have elapsed since the last
status-print timestamp; on a tick missing the status-time condition the
flag survives. -/
theorem C7_amended_extended_awake (env : Env) (now : Nat) (s : State)
    (hres : s.restarted = false) (hsetup : s.setupState = .SETUP_COMPLETE)
    (hnow : now < U32) (hflag : s.forceExtendedAwake = true)
    (hold : usub now s.lastCommandTime ≥ AWAKE_AFTER_COMMAND_MS) :
    (loopTick env now s).1.sleepState = .SLEEP_AWAKE ∧
    (5000 ≤ usub now s.lastStatusTime → usub now s.lastStatusTime < 10000 →
      10000 ≤ usub now s.lastCommandTime →
      (loopTick env now s).1.forceExtendedAwake = false ∧
      (loopTick env now s).1.consecutiveSleepCycles = 0 ∧
      (loopTick env now s).1.nextSleepTime = uadd now 100) ∧
    ((usub now s.lastStatusTime < 5000 ∨ 10000 ≤ usub now s.lastStatusTime ∨
      usub now s.lastCommandTime < 10000) →
      (loopTick env now s).1.forceExtendedAwake = true) := by
  rw [loopTick_main env now s hres hsetup hnow]
  obtain ⟨a, t, c, g, d, st, b, l, hpre⟩ := prefixPhases_shape env now s
  rw [hpre]
  unfold dutyPolicy
  dsimp only
  rw [if_neg (by omega)]
  rw [if_pos hflag]
  by_cases h10 : 10000 ≤ usub now s.lastStatusTime
  · -- the status print this tick stamped lastStatusTime := now,
    -- so the nested 5000 ms test fails and the flag survives
    rw [if_pos h10, usub_self]
    rw [if_neg (by omega)]
    unfold sleepPhase
    simp only [ne_eq, not_true_eq_false, ite_false, if_false]
    refine ⟨trivial, ?_, ?_⟩
    · intro _ hlt _
      omega
    · intro _
      exact hflag
  · rw [if_neg h10]
    by_cases h5 : 5000 ≤ usub now s.lastStatusTime
    · rw [if_pos h5]
      by_cases hcmd : 10000 ≤ usub now s.lastCommandTime
      · rw [if_pos hcmd]
        unfold sleepPhase
        simp only [ne_eq, not_true_eq_false, ite_false, if_false]
        refine ⟨trivial, ?_, ?_⟩
        · intro _ _ _
          exact ⟨trivial, trivial, trivial⟩
        · intro hdisj
          rcases hdisj with hx | hx | hx <;> omega
      · rw [if_neg hcmd]
        unfold sleepPhase
        simp only [ne_eq, not_true_eq_false, ite_false, if_false]
        refine ⟨trivial, ?_, ?_⟩
        · intro _ _ hc
          omega
        · intro _
          exact hflag
    · rw [if_neg h5]
      unfold sleepPhase
      simp only [ne_eq, not_true_eq_false, ite_false, if_false]
      refine ⟨trivial, ?_, ?_⟩
      · intro hc _ _
        omega
      · intro _
        exact hflag

/-- C7 witness: with 20000 ms since the last frame and 6000 ms since the
last status print, the tick clears the flag and schedules the grace
delay. -/
theorem C7_witness :
    (loopTick defaultEnv 20000
        { postSetup 0 with forceExtendedAwake := true,
                           lastStatusTime := 14000 }).1.sleepState = .SLEEP_AWAKE ∧
    (loopTick defaultEnv 20000
        { postSetup 0 with forceExtendedAwake := true,
                           lastStatusTime := 14000 }).1.forceExtendedAwake = false ∧
    (loopTick defaultEnv 20000
        { postSetup 0 with forceExtendedAwake := true,
                           lastStatusTime := 14000 }).1.consecutiveSleepCycles = 0 ∧
    (loopTick defaultEnv 20000
        { postSetup 0 with forceExtendedAwake := true,
                           lastStatusTime := 14000 }).1.nextSleepTime = uadd 20000 100 := by
  have h := C7_amended_extended_awake defaultEnv 20000
    { postSetup 0 with forceExtendedAwake := true, lastStatusTime := 14000 }
    rfl rfl (by decide) rfl (by decide)
  obtain ⟨h1, h2, _⟩ := h
  obtain ⟨h3, h4, h5⟩ := h2 (by decide) (by decide) (by decide)
  exact ⟨h1, h3, h4, h5⟩

/-- `processAcknowledgment` leaves everything but the Ack FSM scratch
untouched (projection form, convenient for rewriting). -/
theorem processAcknowledgment_preserves_activeLedIndex (env : Env) (now : Nat)
    (s : State) :
    (processAcknowledgment env now s).1.activeLedIndex = s.activeLedIndex := by
  obtain ⟨a, t, c, g, h⟩ := processAcknowledgment_shape env now s
  rw [h]

theorem processAcknowledgment_preserves_leds (env : Env) (now : Nat) (s : State) :
    (processAcknowledgment env now s).1.leds = s.leds := by
  obtain ⟨a, t, c, g, h⟩ := processAcknowledgment_shape env now s
  rw [h]

theorem processAcknowledgment_preserves_ledTestState (env : Env) (now : Nat)
    (s : State) :
    (processAcknowledgment env now s).1.ledTestState = s.ledTestState := by
  obtain ⟨a, t, c, g, h⟩ := processAcknowledgment_shape env now s
  rw [h]

/-! ### C3: what the receive handler may do. -/

/-- C3 counterexample: handling an accepted COMMAND frame, the receive
callback itself invokes ESP-NOW radio-stack operations (peer-exists /
add-peer, via the inline `processAcknowledgment()` call at the end of
`handleLedCommand`), refuting "never invokes … any radio-stack
operation". -/
theorem C3_counterexample :
    (onDataReceived defaultEnv 1000 [170, 1, 2, 3, 4, 5] [LED_COMMAND, 1]
        (postSetup 0)).2.any Effect.isRadioOp = true ∧
    Effect.isPeerExist [170, 1, 2, 3, 4, 5] ∈
      (onDataReceived defaultEnv 1000 [170, 1, 2, 3, 4, 5] [LED_COMMAND, 1]
        (postSetup 0)).2 := by
  decide

/-- C3 (amended): the receive handler never invokes a radio send — every
ACK or DISCOVERY reply frame is transmitted only by a later tick of the
Ack/Discovery FSMs — and it never restarts or sleeps; however, for an
accepted COMMAND it does invoke radio peer-table operations by running the
first acknowledgment-FSM step inline. -/
theorem C3_amended_handler_never_sends (env : Env) (now : Nat) (mac : Addr)
    (data : List Nat) (s : State) :
    ∀ e ∈ (onDataReceived env now mac data s).2,
      e.isSend = false ∧ e ≠ .restart ∧ e ≠ .lightSleep :=
  onDataReceived_effects env now mac data s

/-- C3 witness: the amended no-send guarantee at a concrete input. -/
theorem C3_witness :
    Effect.isSend (Effect.isPeerExist [170, 1, 2, 3, 4, 5]) = false ∧
    Effect.isPeerExist [170, 1, 2, 3, 4, 5] ≠ Effect.restart ∧
    Effect.isPeerExist [170, 1, 2, 3, 4, 5] ≠ Effect.lightSleep :=
  C3_amended_handler_never_sends defaultEnv 1000 [170, 1, 2, 3, 4, 5]
    [LED_COMMAND, 1] (postSetup 0) (Effect.isPeerExist [170, 1, 2, 3, 4, 5])
    (by decide)

/-! ### C4: an accepted COMMAND lights exactly the commanded LED. -/

/-- C4: for every COMMAND frame with value `v < NUM_LEDS`, handling it
leaves `activeLedIndex = v` and exactly LED `v` lit: every index `j <
NUM_LEDS` is lit afterwards iff `j = v` (so the previously lit LED, if
any, is off).  The precondition is the standing invariant that any lit LED
is the active one. -/
theorem C4_command_lights_commanded_led (env : Env) (now : Nat) (mac : Addr)
    (v : Nat) (s : State) (hv : v < NUM_LEDS)
    (hinv : ∀ j, j < NUM_LEDS → s.leds.get j = true → s.activeLedIndex = (j : Int)) :
    (onDataReceived env now mac [LED_COMMAND, v] s).1.activeLedIndex = (v : Int) ∧
    ∀ j, j < NUM_LEDS →
      ((onDataReceived env now mac [LED_COMMAND, v] s).1.leds.get j = true ↔ j = v) := by
  have hv256 : v % 256 = v := Nat.mod_eq_of_lt (by unfold NUM_LEDS at hv; omega)
  unfold onDataReceived handleLedCommand
  simp only [List.length_cons, List.length_nil, List.getD, List.get?, hv256]
  norm_num [LED_COMMAND]
  have hvi : ((v : Int) % 256) = (v : Int) := by omega
  simp only [hv256, hvi]
  rw [if_neg (by unfold NUM_LEDS at hv ⊢; omega)]
  rw [processAcknowledgment_preserves_activeLedIndex,
      processAcknowledgment_preserves_leds]
  dsimp only
  refine ⟨rfl, ?_⟩
  intro j hj
  unfold NUM_LEDS at hj hinv
  by_cases hjv : j = v
  · subst hjv
    rw [Leds.get_set_self _ _ _ (by omega)]
    simp
  · rw [Leds.get_set_ne _ _ _ _ (by omega)]
    constructor
    · intro hlit
      exfalso
      by_cases hact : s.activeLedIndex ≥ 0
      · rw [if_pos hact] at hlit
        rw [setLedInt_get _ _ _ _ (by omega)] at hlit
        by_cases heq : s.activeLedIndex = (j : Int)
        · rw [if_pos heq] at hlit
          exact Bool.false_ne_true hlit
        · rw [if_neg heq] at hlit
          exact heq (hinv j (by omega) hlit)
      · rw [if_neg hact] at hlit
        have := hinv j (by omega) hlit
        omega
    · intro h
      exact absurd h hjv

/-- C4 witness: COMMAND(1) with LED 0 previously lit leaves exactly LED 1
lit. -/
theorem C4_witness :
    (onDataReceived defaultEnv 1000 [170, 1, 2, 3, 4, 5] [LED_COMMAND, 1]
        { postSetup 0 with activeLedIndex := 0,
                           leds := { led0 := true, led1 := false, led2 := false }
        }).1.activeLedIndex = (1 : Int) ∧
    ∀ j, j < NUM_LEDS →
      ((onDataReceived defaultEnv 1000 [170, 1, 2, 3, 4, 5] [LED_COMMAND, 1]
          { postSetup 0 with activeLedIndex := 0,
                             leds := { led0 := true, led1 := false, led2 := false }
          }).1.leds.get j = true ↔ j = 1) :=
  C4_command_lights_commanded_led defaultEnv 1000 [170, 1, 2, 3, 4, 5] 1
    { postSetup 0 with activeLedIndex := 0,
                       leds := { led0 := true, led1 := false, led2 := false } }
    (by decide) (by decide)

/-! ### C5: what a rejected frame does and does not change. -/

/-- C5 counterexample: an out-of-range COMMAND (value 3 = NUM_LEDS) changes
program state — it refreshes `lastCommandTime`, clears
`forceExtendedAwake`, and caches the sender address — refuting "no change
to any program state". -/
theorem C5_counterexample :
    (onDataReceived defaultEnv 5000 [170, 1, 2, 3, 4, 5] [LED_COMMAND, 3]
        c7state).1.lastCommandTime = 5000 ∧
    c7state.lastCommandTime = 0 ∧
    (onDataReceived defaultEnv 5000 [170, 1, 2, 3, 4, 5] [LED_COMMAND, 3]
        c7state).1.forceExtendedAwake = false ∧
    c7state.forceExtendedAwake = true ∧
    (onDataReceived defaultEnv 5000 [170, 1, 2, 3, 4, 5] [LED_COMMAND, 3]
        c7state).1.lastSenderMac = [170, 1, 2, 3, 4, 5] ∧
    c7state.lastSenderMac = [0, 0, 0, 0, 0, 0] := by
  decide

/-- C5 (amended): every rejected frame is dropped with no reply (empty
effect trace) and without touching the LEDs, the FSM states or the sleep
schedule; however a frame of the correct 2-byte length caches the sender
address regardless of type, and an out-of-range COMMAND additionally
refreshes `lastCommandTime`, resets `consecutiveSleepCycles` and clears
`forceExtendedAwake`.  A wrong-length frame alone changes nothing. -/
theorem C5_amended_rejected_frames (env : Env) (now : Nat) (mac : Addr)
    (data : List Nat) (s : State) :
    (data.length ≠ 2 → onDataReceived env now mac data s = (s, [])) ∧
    (data.length = 2 → data.getD 0 0 % 256 ≠ LED_COMMAND →
      data.getD 0 0 % 256 ≠ DISCOVERY →
      onDataReceived env now mac data s = ({ s with lastSenderMac := mac }, [])) ∧
    (data.length = 2 → data.getD 0 0 % 256 = LED_COMMAND →
      data.getD 1 0 % 256 ≥ NUM_LEDS →
      onDataReceived env now mac data s =
        ({ s with lastSenderMac := mac, lastCommandTime := now % U32,
                  consecutiveSleepCycles := 0, forceExtendedAwake := false }, [])) := by
  refine ⟨?_, ?_, ?_⟩
  · intro hlen
    unfold onDataReceived
    rw [if_neg hlen]
  · intro hlen hty1 hty3
    unfold onDataReceived
    rw [if_pos hlen, if_neg hty1, if_neg hty3]
  · intro hlen hty1 hval
    unfold onDataReceived handleLedCommand
    rw [if_pos hlen, if_pos hty1, if_pos hval]

/-- C5 witness: the out-of-range COMMAND case at a concrete input. -/
theorem C5_witness :
    onDataReceived defaultEnv 5000 [170, 1, 2, 3, 4, 5] [LED_COMMAND, 7]
        (postSetup 0) =
      ({ postSetup 0 with lastSenderMac := [170, 1, 2, 3, 4, 5],
                          lastCommandTime := 5000 % U32,
                          consecutiveSleepCycles := 0,
                          forceExtendedAwake := false }, []) :=
  (C5_amended_rejected_frames defaultEnv 5000 [170, 1, 2, 3, 4, 5]
      [LED_COMMAND, 7] (postSetup 0)).2.2 rfl (by decide) (by decide)

/-! ### C2: machinery for tracking one acknowledgment run. -/

/-- The dispatcher-facing ack FSM step when an ACK is due. -/
theorem ackPhase_send (env : Env) (now : Nat) (s : State)
    (hst : s.ackState = .ACK_SEND) :
    ackPhase env now s =
      ({ s with ackAttemptCount := s.ackAttemptCount + 1, ackTimer := now,
                ackState := .ACK_WAIT },
       [.send s.ackTargetAddr ACKNOWLEDGMENT ((s.activeLedIndex % 256).toNat) now]) := by
  unfold ackPhase
  rw [if_neg (by simp [ackIdle, hst])]
  unfold processAcknowledgment
  rw [if_neg (by simp [hst]), if_neg (by simp [hst]), if_pos hst]

/-- The ack FSM idles while the 20 ms gap has not yet elapsed. -/
theorem ackPhase_wait_pending (env : Env) (now : Nat) (s : State)
    (hst : s.ackState = .ACK_WAIT) (hlt : usub now s.ackTimer < 20) :
    ackPhase env now s = (s, []) := by
  unfold ackPhase
  rw [if_neg (by simp [ackIdle, hst])]
  unfold processAcknowledgment
  rw [if_neg (by simp [hst]), if_neg (by simp [hst]), if_neg (by simp [hst]),
      if_pos hst, if_neg (by omega)]

/-- After the 20 ms gap with fewer than 3 sends done, loop back to Send. -/
theorem ackPhase_wait_again (env : Env) (now : Nat) (s : State)
    (hst : s.ackState = .ACK_WAIT) (hge : usub now s.ackTimer ≥ 20)
    (hcnt : s.ackAttemptCount < 3) :
    ackPhase env now s = ({ s with ackState := .ACK_SEND }, []) := by
  unfold ackPhase
  rw [if_neg (by simp [ackIdle, hst])]
  unfold processAcknowledgment
  rw [if_neg (by simp [hst]), if_neg (by simp [hst]), if_neg (by simp [hst]),
      if_pos hst, if_pos hge, if_pos hcnt]

/-- After the 20 ms gap with 3 sends done, finish in `ACK_COMPLETE`. -/
theorem ackPhase_wait_complete (env : Env) (now : Nat) (s : State)
    (hst : s.ackState = .ACK_WAIT) (hge : usub now s.ackTimer ≥ 20)
    (hcnt : ¬s.ackAttemptCount < 3) :
    ackPhase env now s = ({ s with ackState := .ACK_COMPLETE }, []) := by
  unfold ackPhase
  rw [if_neg (by simp [ackIdle, hst])]
  unfold processAcknowledgment
  rw [if_neg (by simp [hst]), if_neg (by simp [hst]), if_neg (by simp [hst]),
      if_pos hst, if_pos hge, if_neg hcnt]

/-- During the post-frame awake window, with the Discovery FSM idle, a tick
acts on the state exactly as the ack phase plus the status stamp, the LED
reassert and the stay-awake policy, and its trace is the ack phase's. -/
theorem loopTick_awake_idle_disc (env : Env) (now : Nat) (s : State)
    (hres : s.restarted = false) (hsetup : s.setupState = .SETUP_COMPLETE)
    (hnow : now < U32) (hb : s.sendDiscoveryResponse = false)
    (hd : s.discoveryState = .DISCOVERY_INIT)
    (hrecent : usub now s.lastCommandTime < AWAKE_AFTER_COMMAND_MS) :
    loopTick env now s =
      ({ (ackPhase env now s).1 with
          lastStatusTime := if usub now s.lastStatusTime ≥ 10000 then now
                            else s.lastStatusTime,
          leds := if s.activeLedIndex ≥ 0
                  then setLedInt (ackPhase env now s).1.leds s.activeLedIndex true
                  else (ackPhase env now s).1.leds,
          nextSleepTime := uadd s.lastCommandTime AWAKE_AFTER_COMMAND_MS,
          consecutiveSleepCycles := 0, sleepState := .SLEEP_AWAKE },
       (ackPhase env now s).2) := by
  obtain ⟨a, t, c, g, hA⟩ := ackPhase_shape env now s
  rw [loopTick_main env now s hres hsetup hnow, hA]
  unfold discoveryTrigger
  rw [if_neg (by simp [hb])]
  unfold discoveryPhase
  rw [if_neg (by simp [hd])]
  unfold statusPhase ledReassert dutyPolicy
  dsimp only
  rw [if_pos hrecent]
  unfold sleepPhase
  dsimp only
  rw [if_neg (by simp)]
  simp [List.append_nil]

/-- An accepted COMMAND delivered to the receive callback: caches the
sender, stamps the frame time, switches the LED and runs the first ack-FSM
step inline, leaving the FSM armed in `ACK_SEND` (when add-peer
succeeds). -/
theorem recv_command_starts_ack (env : Env) (now : Nat) (mac : Addr) (v : Nat)
    (s : State) (hv : v < NUM_LEDS) (hok : env.addPeerOk = true)
    (hres : s.restarted = false) :
    step s (.recv now env mac [LED_COMMAND, v]) =
      ({ s with lastSenderMac := mac, lastCommandTime := now % U32,
                consecutiveSleepCycles := 0, forceExtendedAwake := false,
                leds := (if s.activeLedIndex ≥ 0
                         then setLedInt s.leds s.activeLedIndex false
                         else s.leds).set v true,
                activeLedIndex := (v : Int), ackTargetAddr := some mac,
                ackState := .ACK_SEND, ackAttemptCount := 0, ackTimer := now % U32 },
       .isPeerExist mac :: (if env.peerExists then [.delPeer mac] else []) ++
         [.addPeer mac]) := by
  have hv3 : v < 3 := by unfold NUM_LEDS at hv; omega
  have hv256 : v % 256 = v := Nat.mod_eq_of_lt (by omega)
  have hnv : ¬v ≥ NUM_LEDS := by unfold NUM_LEDS; omega
  by_cases hact : s.activeLedIndex ≥ 0 <;> by_cases hpe : env.peerExists <;>
    simp [step, onDataReceived, handleLedCommand, processAcknowledgment, ackPeerSetup,
          hres, hok, hv256, hnv, hact, hpe, LED_COMMAND, DISCOVERY]

/-- Facts about a tick that performs one ACK send. -/
theorem tick_send_facts (env : Env) (now : Nat) (s : State) (a : Addr) (v t0 : Nat)
    (hres : s.restarted = false) (hsetup : s.setupState = .SETUP_COMPLETE)
    (hb : s.sendDiscoveryResponse = false) (hd : s.discoveryState = .DISCOVERY_INIT)
    (hg : s.ackTargetAddr = some a) (ha : s.activeLedIndex = (v : Int))
    (ht : s.lastCommandTime = t0) (hst : s.ackState = .ACK_SEND)
    (hnow : now < U32) (hrecent : usub now t0 < AWAKE_AFTER_COMMAND_MS)
    (hv : v < 256) :
    ((loopTick env now s).1.restarted = false ∧
     (loopTick env now s).1.setupState = .SETUP_COMPLETE ∧
     (loopTick env now s).1.sendDiscoveryResponse = false ∧
     (loopTick env now s).1.discoveryState = .DISCOVERY_INIT ∧
     (loopTick env now s).1.ackTargetAddr = some a ∧
     (loopTick env now s).1.activeLedIndex = (v : Int) ∧
     (loopTick env now s).1.lastCommandTime = t0) ∧
    (loopTick env now s).1.ackState = .ACK_WAIT ∧
    (loopTick env now s).1.ackTimer = now ∧
    (loopTick env now s).1.ackAttemptCount = s.ackAttemptCount + 1 ∧
    (loopTick env now s).2 = [.send (some a) ACKNOWLEDGMENT v now] := by
  rw [loopTick_awake_idle_disc env now s hres hsetup hnow hb hd (by rw [ht]; exact hrecent),
      ackPhase_send env now s hst]
  dsimp only
  refine ⟨⟨hres, hsetup, hb, hd, hg, ha, ht⟩, rfl, rfl, rfl, ?_⟩
  rw [hg, ha]
  have hmv : ((v : Int) % 256).toNat = v := by omega
  rw [hmv]

/-- Facts about a tick inside the 20 ms inter-send gap: nothing happens. -/
theorem tick_wait_pending_facts (env : Env) (now : Nat) (s : State) (a : Addr)
    (v t0 : Nat)
    (hres : s.restarted = false) (hsetup : s.setupState = .SETUP_COMPLETE)
    (hb : s.sendDiscoveryResponse = false) (hd : s.discoveryState = .DISCOVERY_INIT)
    (hg : s.ackTargetAddr = some a) (ha : s.activeLedIndex = (v : Int))
    (ht : s.lastCommandTime = t0) (hst : s.ackState = .ACK_WAIT)
    (hnow : now < U32) (hrecent : usub now t0 < AWAKE_AFTER_COMMAND_MS)
    (hlt : usub now s.ackTimer < 20) :
    ((loopTick env now s).1.restarted = false ∧
     (loopTick env now s).1.setupState = .SETUP_COMPLETE ∧
     (loopTick env now s).1.sendDiscoveryResponse = false ∧
     (loopTick env now s).1.discoveryState = .DISCOVERY_INIT ∧
     (loopTick env now s).1.ackTargetAddr = some a ∧
     (loopTick env now s).1.activeLedIndex = (v : Int) ∧
     (loopTick env now s).1.lastCommandTime = t0) ∧
    (loopTick env now s).1.ackState = .ACK_WAIT ∧
    (loopTick env now s).1.ackTimer = s.ackTimer ∧
    (loopTick env now s).1.ackAttemptCount = s.ackAttemptCount ∧
    (loopTick env now s).2 = [] := by
  rw [loopTick_awake_idle_disc env now s hres hsetup hnow hb hd (by rw [ht]; exact hrecent),
      ackPhase_wait_pending env now s hst hlt]
  dsimp only
  exact ⟨⟨hres, hsetup, hb, hd, hg, ha, ht⟩, hst, rfl, rfl, rfl⟩

/-- Facts about a tick that sees the 20 ms gap elapsed with sends left. -/
theorem tick_wait_again_facts (env : Env) (now : Nat) (s : State) (a : Addr)
    (v t0 : Nat)
    (hres : s.restarted = false) (hsetup : s.setupState = .SETUP_COMPLETE)
    (hb : s.sendDiscoveryResponse = false) (hd : s.discoveryState = .DISCOVERY_INIT)
    (hg : s.ackTargetAddr = some a) (ha : s.activeLedIndex = (v : Int))
    (ht : s.lastCommandTime = t0) (hst : s.ackState = .ACK_WAIT)
    (hnow : now < U32) (hrecent : usub now t0 < AWAKE_AFTER_COMMAND_MS)
    (hge : usub now s.ackTimer ≥ 20) (hcnt : s.ackAttemptCount < 3) :
    ((loopTick env now s).1.restarted = false ∧
     (loopTick env now s).1.setupState = .SETUP_COMPLETE ∧
     (loopTick env now s).1.sendDiscoveryResponse = false ∧
     (loopTick env now s).1.discoveryState = .DISCOVERY_INIT ∧
     (loopTick env now s).1.ackTargetAddr = some a ∧
     (loopTick env now s).1.activeLedIndex = (v : Int) ∧
     (loopTick env now s).1.lastCommandTime = t0) ∧
    (loopTick env now s).1.ackState = .ACK_SEND ∧
    (loopTick env now s).1.ackTimer = s.ackTimer ∧
    (loopTick env now s).1.ackAttemptCount = s.ackAttemptCount ∧
    (loopTick env now s).2 = [] := by
  rw [loopTick_awake_idle_disc env now s hres hsetup hnow hb hd (by rw [ht]; exact hrecent),
      ackPhase_wait_again env now s hst hge hcnt]
  dsimp only
  exact ⟨⟨hres, hsetup, hb, hd, hg, ha, ht⟩, rfl, rfl, rfl, rfl⟩

/-- Facts about the tick that sees the gap elapsed after the third send:
the run finishes in `ACK_COMPLETE`, which the dispatcher treats as idle. -/
theorem tick_wait_complete_facts (env : Env) (now : Nat) (s : State) (a : Addr)
    (v t0 : Nat)
    (hres : s.restarted = false) (hsetup : s.setupState = .SETUP_COMPLETE)
    (hb : s.sendDiscoveryResponse = false) (hd : s.discoveryState = .DISCOVERY_INIT)
    (hg : s.ackTargetAddr = some a) (ha : s.activeLedIndex = (v : Int))
    (ht : s.lastCommandTime = t0) (hst : s.ackState = .ACK_WAIT)
    (hnow : now < U32) (hrecent : usub now t0 < AWAKE_AFTER_COMMAND_MS)
    (hge : usub now s.ackTimer ≥ 20) (hcnt : ¬s.ackAttemptCount < 3) :
    (loopTick env now s).1.ackState = .ACK_COMPLETE ∧
    (loopTick env now s).2 = [] := by
  rw [loopTick_awake_idle_disc env now s hres hsetup hnow hb hd (by rw [ht]; exact hrecent),
      ackPhase_wait_complete env now s hst hge hcnt]
  exact ⟨rfl, rfl⟩

/-- C2: for every accepted COMMAND (value < NUM_LEDS) from sender `a`,
with the peer-table adds succeeding, the Discovery FSM idle and no other
frames, the acknowledgment run over a tick schedule respecting the FSM's
own gating sends exactly 3 ACK frames (no other send happens), each to
`a`, each carrying the LED value active at its send time (= the commanded
value), consecutive sends at least 20 ms apart, and the Ack FSM ends in
`ACK_COMPLETE` — a state the dispatcher's guard (loop line 240) treats as
idle. -/
theorem C2_ack_run_three_sends (env : Env) (s0 : State) (a : Addr) (v : Nat)
    (t0 t1 t2 t3 t4 t5 t6 : Nat)
    (hres : s0.restarted = false) (hsetup : s0.setupState = .SETUP_COMPLETE)
    (hb : s0.sendDiscoveryResponse = false)
    (hd : s0.discoveryState = .DISCOVERY_INIT)
    (hok : env.addPeerOk = true) (hv : v < NUM_LEDS)
    (h01 : t0 ≤ t1) (h12 : t1 + 20 ≤ t2) (h23 : t2 ≤ t3) (h34 : t3 + 20 ≤ t4)
    (h45 : t4 ≤ t5) (h56 : t5 + 20 ≤ t6)
    (hwin : t6 < t0 + AWAKE_AFTER_COMMAND_MS) (hU : t6 < U32) :
    ((run s0 [.recv t0 env a [LED_COMMAND, v], .tick t1 env, .tick t2 env,
              .tick t3 env, .tick t4 env, .tick t5 env, .tick t6 env]).2.filter
        Effect.isSend) =
      [.send (some a) ACKNOWLEDGMENT v t1, .send (some a) ACKNOWLEDGMENT v t3,
       .send (some a) ACKNOWLEDGMENT v t5] ∧
    (run s0 [.recv t0 env a [LED_COMMAND, v], .tick t1 env, .tick t2 env,
             .tick t3 env, .tick t4 env, .tick t5 env,
             .tick t6 env]).1.ackState = .ACK_COMPLETE ∧
    ackIdle (run s0 [.recv t0 env a [LED_COMMAND, v], .tick t1 env, .tick t2 env,
                     .tick t3 env, .tick t4 env, .tick t5 env,
                     .tick t6 env]).1.ackState ∧
    t1 + 20 ≤ t3 ∧ t3 + 20 ≤ t5 := by
  have hA : AWAKE_AFTER_COMMAND_MS = 3000 := rfl
  have hv3 : v < 3 := by unfold NUM_LEDS at hv; omega
  have hU0 : t0 < U32 := by omega
  have hU1 : t1 < U32 := by omega
  have hU2 : t2 < U32 := by omega
  have hU3 : t3 < U32 := by omega
  have hU4 : t4 < U32 := by omega
  have hU5 : t5 < U32 := by omega
  have hm0 : t0 % U32 = t0 := Nat.mod_eq_of_lt hU0
  have hr1 : usub t1 t0 < AWAKE_AFTER_COMMAND_MS := by
    rw [usub_eq_sub h01 hU1]; omega
  have hr2 : usub t2 t0 < AWAKE_AFTER_COMMAND_MS := by
    rw [usub_eq_sub (by omega) hU2]; omega
  have hr3 : usub t3 t0 < AWAKE_AFTER_COMMAND_MS := by
    rw [usub_eq_sub (by omega) hU3]; omega
  have hr4 : usub t4 t0 < AWAKE_AFTER_COMMAND_MS := by
    rw [usub_eq_sub (by omega) hU4]; omega
  have hr5 : usub t5 t0 < AWAKE_AFTER_COMMAND_MS := by
    rw [usub_eq_sub (by omega) hU5]; omega
  have hr6 : usub t6 t0 < AWAKE_AFTER_COMMAND_MS := by
    rw [usub_eq_sub (by omega) hU]; omega
  have e1 := recv_command_starts_ack env t0 a v s0 hv hok hres
  rw [hm0] at e1
  set S1 := (step s0 (Event.recv t0 env a [LED_COMMAND, v])).1 with hS1
  have F1 : S1.restarted = false ∧ S1.setupState = .SETUP_COMPLETE ∧
      S1.sendDiscoveryResponse = false ∧ S1.discoveryState = .DISCOVERY_INIT ∧
      S1.ackTargetAddr = some a ∧ S1.activeLedIndex = (v : Int) ∧
      S1.lastCommandTime = t0 ∧ S1.ackState = .ACK_SEND ∧
      S1.ackTimer = t0 ∧ S1.ackAttemptCount = 0 := by
    rw [hS1, e1]
    exact ⟨hres, hsetup, hb, hd, rfl, rfl, rfl, rfl, rfl, rfl⟩
  obtain ⟨f1res, f1setup, f1b, f1d, f1g, f1a, f1t, f1st, f1tm, f1cnt⟩ := F1
  -- tick t1: first send
  obtain ⟨⟨g1res, g1setup, g1b, g1d, g1g, g1a, g1t⟩, g1st, g1tm, g1cnt, g1tr⟩ :=
    tick_send_facts env t1 S1 a v t0 f1res f1setup f1b f1d f1g f1a f1t f1st hU1 hr1
      (by omega)
  set S2 := (loopTick env t1 S1).1 with hS2
  -- tick t2: 20 ms gap elapsed, loop back to Send
  obtain ⟨⟨g2res, g2setup, g2b, g2d, g2g, g2a, g2t⟩, g2st, g2tm, g2cnt, g2tr⟩ :=
    tick_wait_again_facts env t2 S2 a v t0 g1res g1setup g1b g1d g1g g1a g1t g1st
      hU2 hr2 (by rw [g1tm, usub_eq_sub (by omega) hU2]; omega) (by omega)
  set S3 := (loopTick env t2 S2).1 with hS3
  -- tick t3: second send
  obtain ⟨⟨g3res, g3setup, g3b, g3d, g3g, g3a, g3t⟩, g3st, g3tm, g3cnt, g3tr⟩ :=
    tick_send_facts env t3 S3 a v t0 g2res g2setup g2b g2d g2g g2a g2t g2st hU3 hr3
      (by omega)
  set S4 := (loopTick env t3 S3).1 with hS4
  -- tick t4: gap elapsed again
  obtain ⟨⟨g4res, g4setup, g4b, g4d, g4g, g4a, g4t⟩, g4st, g4tm, g4cnt, g4tr⟩ :=
    tick_wait_again_facts env t4 S4 a v t0 g3res g3setup g3b g3d g3g g3a g3t g3st
      hU4 hr4 (by rw [g3tm, usub_eq_sub (by omega) hU4]; omega) (by omega)
  set S5 := (loopTick env t4 S4).1 with hS5
  -- tick t5: third send
  obtain ⟨⟨g5res, g5setup, g5b, g5d, g5g, g5a, g5t⟩, g5st, g5tm, g5cnt, g5tr⟩ :=
    tick_send_facts env t5 S5 a v t0 g4res g4setup g4b g4d g4g g4a g4t g4st hU5 hr5
      (by omega)
  set S6 := (loopTick env t5 S5).1 with hS6
  -- tick t6: run completes
  obtain ⟨g6st, g6tr⟩ :=
    tick_wait_complete_facts env t6 S6 a v t0 g5res g5setup g5b g5d g5g g5a g5t g5st
      hU hr6 (by rw [g5tm, usub_eq_sub (by omega) hU]; omega) (by omega)
  have hrun1 : (run s0 [.recv t0 env a [LED_COMMAND, v], .tick t1 env, .tick t2 env,
      .tick t3 env, .tick t4 env, .tick t5 env, .tick t6 env]).1 =
      (loopTick env t6 S6).1 := rfl
  have hrun2 : (run s0 [.recv t0 env a [LED_COMMAND, v], .tick t1 env, .tick t2 env,
      .tick t3 env, .tick t4 env, .tick t5 env, .tick t6 env]).2 =
      (step s0 (Event.recv t0 env a [LED_COMMAND, v])).2 ++
      ((loopTick env t1 S1).2 ++ ((loopTick env t2 S2).2 ++ ((loopTick env t3 S3).2 ++
       ((loopTick env t4 S4).2 ++ ((loopTick env t5 S5).2 ++
        ((loopTick env t6 S6).2 ++ [])))))) := rfl
  have e1tr : (step s0 (Event.recv t0 env a [LED_COMMAND, v])).2 =
      .isPeerExist a :: (if env.peerExists then [.delPeer a] else []) ++
        [.addPeer a] := by rw [e1]
  refine ⟨?_, ?_, ?_, by omega, by omega⟩
  · rw [hrun2, e1tr, g1tr, g2tr, g3tr, g4tr, g5tr, g6tr]
    by_cases hpe : env.peerExists = true <;>
      simp [hpe, Effect.isSend, List.filter_append]
  · rw [hrun1]
    exact g6st
  · rw [hrun1, g6st]
    right
    rfl

/-- C2 witness: a concrete run with sends at 1000/1020/1040 ms. -/
theorem C2_witness :
    ((run (postSetup 0) [.recv 1000 defaultEnv [170, 1, 2, 3, 4, 5] [LED_COMMAND, 1],
        .tick 1000 defaultEnv, .tick 1020 defaultEnv, .tick 1020 defaultEnv,
        .tick 1040 defaultEnv, .tick 1040 defaultEnv, .tick 1060 defaultEnv]).2.filter
      Effect.isSend) =
      [.send (some [170, 1, 2, 3, 4, 5]) ACKNOWLEDGMENT 1 1000,
       .send (some [170, 1, 2, 3, 4, 5]) ACKNOWLEDGMENT 1 1020,
       .send (some [170, 1, 2, 3, 4, 5]) ACKNOWLEDGMENT 1 1040] ∧
    (run (postSetup 0) [.recv 1000 defaultEnv [170, 1, 2, 3, 4, 5] [LED_COMMAND, 1],
        .tick 1000 defaultEnv, .tick 1020 defaultEnv, .tick 1020 defaultEnv,
        .tick 1040 defaultEnv, .tick 1040 defaultEnv,
        .tick 1060 defaultEnv]).1.ackState = .ACK_COMPLETE ∧
    ackIdle (run (postSetup 0) [.recv 1000 defaultEnv [170, 1, 2, 3, 4, 5]
        [LED_COMMAND, 1], .tick 1000 defaultEnv, .tick 1020 defaultEnv,
        .tick 1020 defaultEnv, .tick 1040 defaultEnv, .tick 1040 defaultEnv,
        .tick 1060 defaultEnv]).1.ackState ∧
    1000 + 20 ≤ 1020 ∧ 1020 + 20 ≤ 1040 :=
  C2_ack_run_three_sends defaultEnv (postSetup 0) [170, 1, 2, 3, 4, 5] 1
    1000 1000 1020 1020 1040 1040 1060 rfl rfl rfl rfl rfl (by decide)
    (by omega) (by omega) (by omega) (by omega) (by omega) (by omega)
    (by norm_num [AWAKE_AFTER_COMMAND_MS]) (by norm_num [U32])

/-! ### C8: DISCOVERY handling, and the stuck Discovery FSM. -/

def demoMac : Addr := [170, 1, 2, 3, 4, 5]

/-- C8 (code bug, evaluated at the failing input): the first DISCOVERY
frame from `demoMac` is handled as the claim says — the peer store
persists the sender, `lastCommandTime` is refreshed, exactly one DISCOVERY
reply goes to the sender — but the FSM ends in `DISCOVERY_COMPLETE` and
the dispatcher guard (loop line 250) never runs its reset case, so a
second DISCOVERY frame sets the pending flag and then never gets a reply:
after arbitrary further ticks the send trace still holds exactly one
DISCOVERY reply and the pending flag is stuck. -/
theorem C8_second_discovery_gets_no_reply :
    ((run (postSetup 0) [.recv 1000 defaultEnv demoMac [DISCOVERY, 0],
        .tick 1001 defaultEnv, .tick 1002 defaultEnv,
        .tick 1003 defaultEnv]).2.filter Effect.isSend =
      [.send (some demoMac) DISCOVERY 0 1002]) ∧
    (run (postSetup 0) [.recv 1000 defaultEnv demoMac [DISCOVERY, 0],
        .tick 1001 defaultEnv, .tick 1002 defaultEnv,
        .tick 1003 defaultEnv]).1.savedPeer = some demoMac ∧
    (run (postSetup 0) [.recv 1000 defaultEnv demoMac [DISCOVERY, 0],
        .tick 1001 defaultEnv, .tick 1002 defaultEnv,
        .tick 1003 defaultEnv]).1.lastCommandTime = 1000 ∧
    (run (postSetup 0) [.recv 1000 defaultEnv demoMac [DISCOVERY, 0],
        .tick 1001 defaultEnv, .tick 1002 defaultEnv, .tick 1003 defaultEnv,
        .recv 1004 defaultEnv demoMac [DISCOVERY, 0], .tick 1005 defaultEnv,
        .tick 1006 defaultEnv, .tick 1007 defaultEnv]).2.filter Effect.isSend =
      [.send (some demoMac) DISCOVERY 0 1002] ∧
    (run (postSetup 0) [.recv 1000 defaultEnv demoMac [DISCOVERY, 0],
        .tick 1001 defaultEnv, .tick 1002 defaultEnv, .tick 1003 defaultEnv,
        .recv 1004 defaultEnv demoMac [DISCOVERY, 0], .tick 1005 defaultEnv,
        .tick 1006 defaultEnv,
        .tick 1007 defaultEnv]).1.discoveryState = .DISCOVERY_COMPLETE ∧
    (run (postSetup 0) [.recv 1000 defaultEnv demoMac [DISCOVERY, 0],
        .tick 1001 defaultEnv, .tick 1002 defaultEnv, .tick 1003 defaultEnv,
        .recv 1004 defaultEnv demoMac [DISCOVERY, 0], .tick 1005 defaultEnv,
        .tick 1006 defaultEnv,
        .tick 1007 defaultEnv]).1.sendDiscoveryResponse = true := by
  decide

/-! ### C10: LED mutual exclusion and index range. -/

/-- The standing LED invariant: the active index is `-1` or in range, and
once the boot self-test has finished, any lit LED is the active one. -/
def LedInv (s : State) : Prop :=
  (s.activeLedIndex = -1 ∨ (0 ≤ s.activeLedIndex ∧ s.activeLedIndex < 3)) ∧
  (s.ledTestState = .LED_TEST_COMPLETE →
    ∀ j, j < 3 → s.leds.get j = true → s.activeLedIndex = (j : Int))

/-- Transfer of the invariant along a state whose LED-relevant fields are
unchanged. -/
theorem LedInv_mk (s s' : State) (h1 : s'.activeLedIndex = s.activeLedIndex)
    (h2 : s'.ledTestState = s.ledTestState) (h3 : s'.leds = s.leds)
    (h : LedInv s) : LedInv s' := by
  obtain ⟨ha, hb⟩ := h
  refine ⟨by rw [h1]; exact ha, ?_⟩
  intro hc j hj hl
  rw [h1]
  exact hb (by rw [← h2]; exact hc) j hj (by rw [← h3]; exact hl)

theorem LedInv_processLedTest (now : Nat) (s : State) (h : LedInv s) :
    LedInv (processLedTest now s) := by
  obtain ⟨h1, h2⟩ := h
  unfold processLedTest
  split_ifs <;> refine ⟨h1, ?_⟩ <;> intro hc j hj hl <;>
    first
      | exact h2 hc j hj hl
      | (simp_all; done)
      | (simp [Leds.get] at hl)

/-- Re-driving the active LED preserves the invariant. -/
theorem LedInv_set_active (s : State) (h : LedInv s) :
    LedInv { s with leds := if s.activeLedIndex ≥ 0
                            then setLedInt s.leds s.activeLedIndex true
                            else s.leds } := by
  obtain ⟨h1, h2⟩ := h
  refine ⟨h1, ?_⟩
  intro hc j hj hl
  dsimp only at hl
  by_cases hact : s.activeLedIndex ≥ 0
  · rw [if_pos hact, setLedInt_get _ _ _ _ hj] at hl
    by_cases he : s.activeLedIndex = (j : Int)
    · exact he
    · rw [if_neg he] at hl
      exact h2 hc j hj hl
  · rw [if_neg hact] at hl
    exact h2 hc j hj hl

set_option maxHeartbeats 1000000 in
theorem LedInv_processSleepWakeup (env : Env) (now : Nat) (s : State)
    (h : LedInv s) : LedInv (processSleepWakeup env now s).1 := by
  cases hs : s.sleepState <;> simp only [processSleepWakeup, hs] <;>
    first
      | exact h
      | exact LedInv_mk s _ rfl rfl rfl h
      | exact LedInv_mk { s with leds := if s.activeLedIndex ≥ 0
                                         then setLedInt s.leds s.activeLedIndex true
                                         else s.leds } _ rfl rfl rfl
          (LedInv_set_active s h)
      | (split_ifs <;>
          first
            | exact h
            | exact LedInv_mk s _ rfl rfl rfl h)

theorem LedInv_handleLedCommand (env : Env) (now : Nat) (v : Nat) (mac : Addr)
    (s : State) (h : LedInv s) : LedInv (handleLedCommand env now v mac s).1 := by
  unfold handleLedCommand
  split_ifs with hge hact0
  · exact h
  · unfold NUM_LEDS at hge
    apply LedInv_mk _ _ (processAcknowledgment_preserves_activeLedIndex env now _)
      (processAcknowledgment_preserves_ledTestState env now _)
      (processAcknowledgment_preserves_leds env now _)
    constructor
    · dsimp only
      right
      exact ⟨by omega, by omega⟩
    · intro hc j hj hl
      dsimp only at hl hc ⊢
      by_cases hjv : j = v
      · rw [hjv]
      · rw [Leds.get_set_ne _ _ _ _ (by omega), setLedInt_get _ _ _ _ hj] at hl
        by_cases he : s.activeLedIndex = (j : Int)
        · rw [if_pos he] at hl
          exact absurd hl (by simp)
        · rw [if_neg he] at hl
          exact absurd (h.2 hc j hj hl) he
  · unfold NUM_LEDS at hge
    apply LedInv_mk _ _ (processAcknowledgment_preserves_activeLedIndex env now _)
      (processAcknowledgment_preserves_ledTestState env now _)
      (processAcknowledgment_preserves_leds env now _)
    constructor
    · dsimp only
      right
      exact ⟨by omega, by omega⟩
    · intro hc j hj hl
      dsimp only at hl hc ⊢
      by_cases hjv : j = v
      · rw [hjv]
      · rw [Leds.get_set_ne _ _ _ _ (by omega)] at hl
        have := h.2 hc j hj hl
        omega

theorem LedInv_onDataReceived (env : Env) (now : Nat) (mac : Addr)
    (data : List Nat) (s : State) (h : LedInv s) :
    LedInv (onDataReceived env now mac data s).1 := by
  unfold onDataReceived
  dsimp only
  split_ifs <;>
    first
      | exact LedInv_mk s _ rfl rfl rfl h
      | exact LedInv_handleLedCommand env now _ mac _
          (LedInv_mk s _ rfl rfl rfl h)

theorem LedInv_setupTick (env : Env) (now : Nat) (s : State) (h : LedInv s) :
    LedInv (setupTick env now s).1 := by
  unfold setupTick
  dsimp only
  split_ifs <;>
    first
      | exact LedInv_mk s _ rfl rfl rfl h
      | (refine ⟨h.1, ?_⟩
         intro hc
         simp at hc)
      | exact LedInv_mk (processLedTest now s) _ rfl rfl rfl
          (LedInv_processLedTest now s h)

theorem LedInv_ackPhase (env : Env) (now : Nat) (s : State) (h : LedInv s) :
    LedInv (ackPhase env now s).1 := by
  obtain ⟨a, t, c, g, hA⟩ := ackPhase_shape env now s
  rw [hA]
  exact LedInv_mk s _ rfl rfl rfl h

theorem LedInv_discoveryTrigger (now : Nat) (s : State) (h : LedInv s) :
    LedInv (discoveryTrigger now s) := by
  obtain ⟨d, st, hD⟩ := discoveryTrigger_shape now s
  rw [hD]
  exact LedInv_mk s _ rfl rfl rfl h

theorem LedInv_discoveryPhase (env : Env) (now : Nat) (s : State) (h : LedInv s) :
    LedInv (discoveryPhase env now s).1 := by
  obtain ⟨d, b, hD⟩ := discoveryPhase_shape env now s
  rw [hD]
  exact LedInv_mk s _ rfl rfl rfl h

theorem LedInv_statusPhase (now : Nat) (s : State) (h : LedInv s) :
    LedInv (statusPhase now s) :=
  LedInv_mk s _ rfl rfl rfl h

theorem LedInv_dutyPolicy (now : Nat) (s : State) (h : LedInv s) :
    LedInv (dutyPolicy now s) := by
  obtain ⟨n, c, b, ls, sl, st, hD⟩ := dutyPolicy_shape now s
  rw [hD]
  exact LedInv_mk s _ rfl rfl rfl h

theorem LedInv_sleepPhase (env : Env) (now : Nat) (s : State) (h : LedInv s) :
    LedInv (sleepPhase env now s).1 := by
  unfold sleepPhase
  split_ifs
  · exact LedInv_processSleepWakeup env now s h
  · exact h

theorem LedInv_loopTick (env : Env) (now : Nat) (s : State) (h : LedInv s) :
    LedInv (loopTick env now s).1 := by
  unfold loopTick
  dsimp only
  split_ifs
  · exact h
  · exact LedInv_setupTick env _ s h
  · exact LedInv_sleepPhase env _ _
      (LedInv_dutyPolicy _ _
        (LedInv_set_active _
          (LedInv_statusPhase _ _
            (LedInv_discoveryPhase env _ _
              (LedInv_discoveryTrigger _ _
                (LedInv_ackPhase env _ s h))))))

theorem LedInv_step (s : State) (e : Event) (h : LedInv s) :
    LedInv (step s e).1 := by
  cases e with
  | tick now env => exact LedInv_loopTick env now s h
  | recv now env mac data =>
      unfold step
      split_ifs
      · exact h
      · exact LedInv_onDataReceived env _ mac data s h

theorem LedInv_run (s : State) (evs : List Event) (h : LedInv s) :
    LedInv (run s evs).1 := by
  induction evs generalizing s with
  | nil => exact h
  | cons e es ih => exact ih (step s e).1 (LedInv_step s e h)

/-- The boot tick schedule that walks the LED self-test into its
all-LEDs-on flash. -/
def bootEvents : List Event :=
  [.tick 500 defaultEnv, .tick 501 defaultEnv, .tick 502 defaultEnv,
   .tick 901 defaultEnv, .tick 902 defaultEnv, .tick 1301 defaultEnv,
   .tick 1302 defaultEnv, .tick 1701 defaultEnv, .tick 1702 defaultEnv]

/-- C10 counterexample: during the boot LED self-test (claimed to be
covered by the at-most-one-lit invariant) the `LED_TEST_ALL_ON` phase
drives all three LEDs lit at once: after the concrete boot schedule
`bootEvents` from power-on at time 0, all 3 LEDs are lit. -/
theorem C10_counterexample :
    (run (setupInit 0 none) bootEvents).1.leds.count = 3 ∧
    (run (setupInit 0 none) bootEvents).1.ledTestState = .LED_TEST_ALL_OFF := by
  decide

/-- C10 (amended): at every reachable state, the active-LED index is `-1`
or in `0..NUM_LEDS-1` (so every LED-pin lookup through it is in bounds),
and once the boot LED self-test has terminated, at most one LED is driven
lit; during the self-test, the all-on flash deliberately lights all LEDs
together. -/
theorem C10_amended_led_invariant (t0 : Nat) (saved : Option Addr)
    (evs : List Event) :
    ((run (setupInit t0 saved) evs).1.activeLedIndex = -1 ∨
     (0 ≤ (run (setupInit t0 saved) evs).1.activeLedIndex ∧
      (run (setupInit t0 saved) evs).1.activeLedIndex < 3)) ∧
    ((run (setupInit t0 saved) evs).1.ledTestState = .LED_TEST_COMPLETE →
      (run (setupInit t0 saved) evs).1.leds.count ≤ 1) := by
  have h0 : LedInv (setupInit t0 saved) := by
    refine ⟨Or.inl rfl, ?_⟩
    intro hc
    simp [setupInit] at hc
  have hInv := LedInv_run (setupInit t0 saved) evs h0
  exact ⟨hInv.1, fun hc => Leds.count_le_one _ _ (hInv.2 hc)⟩

/-- The boot schedule extended until the self-test terminates. -/
def bootDoneEvents : List Event :=
  [.tick 500 defaultEnv, .tick 501 defaultEnv, .tick 502 defaultEnv,
   .tick 901 defaultEnv, .tick 902 defaultEnv, .tick 1301 defaultEnv,
   .tick 1302 defaultEnv, .tick 1701 defaultEnv, .tick 1702 defaultEnv,
   .tick 2002 defaultEnv]

set_option maxHeartbeats 1000000 in
/-- C10 witness: after a boot schedule that finishes the self-test, at
most one LED is lit. -/
theorem C10_witness :
    (run (setupInit 0 none) bootDoneEvents).1.leds.count ≤ 1 :=
  (C10_amended_led_invariant 0 none bootDoneEvents).2 (by decide)
